import Mathlib

/-!
Verification development for the xemu memory-patch engine
(`src/ui/xemu-patches.c`, `src/ui/xemu-patches.h`,
`src/ui/xui/virtual-memory-access.c`, `src/ui/xui/main-menu.cc`).

The C sources are shallowly embedded: C strings become `List Char`,
machine integers become `Nat`/`Int` (with explicit wrapping where the C
code relies on it), guest memory becomes an explicit state record, and
the file-scope globals and function-local statics of the C become fields
of explicit state records threaded through the translated functions.
External collaborators (the QEMU CPU, `SDL_GetTicks`, `time(NULL)`,
`xemu_get_xbe_info`) are parameters supplied by an environment record.
-/

namespace Xemu

/-! ## C string basics (`char *` as `List Char`) -/

/-- C strings are modelled as lists of characters (no NUL terminator). -/
abbrev CStr := List Char

/-- Shorthand for writing string literals as `CStr`. -/
def strOf (s : String) : CStr := s.data

/-- `g_ascii_isspace`: space, tab, newline, vertical tab, form feed, carriage return. -/
def isSpaceChar (c : Char) : Bool :=
  c = ' ' || c = '\t' || c = '\n' || c = '\x0b' || c = '\x0c' || c = '\r'

/-- `g_strstrip`: remove leading and trailing ASCII whitespace. -/
def strip (s : CStr) : CStr :=
  ((s.dropWhile isSpaceChar).reverse.dropWhile isSpaceChar).reverse

/-- `g_str_has_prefix s pre`. -/
def strHasPre (s pre : CStr) : Bool := pre.isPrefixOf s

/-- `strchr`: split a string at the first occurrence of `c`; the second
component is the tail after (not including) `c`.  `none` when `c` does not occur. -/
def strChrSplit (s : CStr) (c : Char) : Option (CStr × CStr) :=
  match s with
  | [] => none
  | a :: rest =>
    if a = c then some ([], rest)
    else match strChrSplit rest c with
      | some (pre, post) => some (a :: pre, post)
      | none => none

/-- `strstr s pat`: index of the first occurrence of `pat` in `s`, if any. -/
def strStrIdx (s pat : CStr) : Option Nat :=
  match s with
  | [] => if pat = [] then some 0 else none
  | _ :: rest =>
    if pat.isPrefixOf s then some 0
    else match strStrIdx rest pat with
      | some i => some (i + 1)
      | none => none

/-- Index of the first element satisfying `p` (the C scan loops that
return the first matching index). -/
def firstIdxWhere (p : α → Prop) [DecidablePred p] : List α → Option Nat
  | [] => none
  | x :: rest => if p x then some 0 else (firstIdxWhere p rest).map (fun i => i + 1)

/-- Split a string on separator characters, dropping empty chunks (the
common behaviour of the C tokenizing loops and of `strtok`). -/
def splitDropEmpty (isSep : Char → Bool) (s : CStr) : List CStr :=
  (s.foldr
    (fun c acc =>
      if isSep c then [] :: acc
      else match acc with
        | [] => [[c]]
        | l :: ls => (c :: l) :: ls)
    [[]]).filter (fun l => l.length ≠ 0)

/-- ASCII lower-casing of a single character (for `strcasecmp`). -/
def asciiLower (c : Char) : Char :=
  if 'A' ≤ c ∧ c ≤ 'Z' then Char.ofNat (c.toNat + 32) else c

/-- `strcasecmp x y == 0`. -/
def strCaseEq (x y : CStr) : Bool :=
  x.map asciiLower = y.map asciiLower

/-! ## Number formatting and parsing helpers -/

/-- Value of a hexadecimal digit character. -/
def hexVal? (c : Char) : Option Nat :=
  if '0' ≤ c ∧ c ≤ '9' then some (c.toNat - 48)
  else if 'a' ≤ c ∧ c ≤ 'f' then some (c.toNat - 87)
  else if 'A' ≤ c ∧ c ≤ 'F' then some (c.toNat - 55)
  else none

/-- Value of a decimal digit character. -/
def decVal? (c : Char) : Option Nat :=
  if '0' ≤ c ∧ c ≤ '9' then some (c.toNat - 48) else none

/-- Accumulate hex digits from the front of a string; returns the value,
the number of digits consumed, and the rest. -/
def takeHexDigits : CStr → Nat → Nat × Nat × CStr
  | [], acc => (acc, 0, [])
  | c :: rest, acc =>
    match hexVal? c with
    | some v =>
      let (value, n, tail) := takeHexDigits rest (acc * 16 + v)
      (value, n + 1, tail)
    | none => (acc, 0, c :: rest)

/-- `strtoul(s, &end, 16)` / `strtol(s, &end, 16)` reading: skip leading
whitespace, optional `0x`/`0X`, then hex digits.  Returns `none` when no
digits could be read, otherwise the value and the unconsumed tail
(the `endptr` position). -/
def strtoulHex (s : CStr) : Option (Nat × CStr) :=
  let s1 := s.dropWhile isSpaceChar
  let s2 := if strHasPre s1 (strOf "0x") || strHasPre s1 (strOf "0X") then s1.drop 2 else s1
  let (v, n, rest) := takeHexDigits s2 0
  if n = 0 then none else some (v, rest)

/-- `strtoul(s, NULL, 16)`: as `strtoulHex` but 0 when no digits (C returns 0). -/
def strtoulHexLoose (s : CStr) : Nat :=
  match strtoulHex s with
  | some (v, _) => v
  | none => 0

/-- `strtoul(s, &end, 16)` with the caller's `*end == '\0'` check:
the whole string must be consumed. -/
def strtoulHexAll (s : CStr) : Option Nat :=
  match strtoulHex s with
  | some (v, []) => some v
  | _ => none

/-- `sscanf(s, "%x", &v) == 1`: leading whitespace, optional `0x`, at least
one hex digit (trailing junk is allowed by `sscanf`). -/
def sscanfHex (s : CStr) : Option Nat :=
  match strtoulHex s with
  | some (v, _) => some v
  | none => none

/-- `atoi`: skip whitespace, optional sign, decimal digits (0 when none). -/
def atoi (s : CStr) : Int :=
  let s1 := s.dropWhile isSpaceChar
  let (neg, s2) : Bool × CStr :=
    match s1 with
    | '-' :: rest => (true, rest)
    | '+' :: rest => (false, rest)
    | _ => (false, s1)
  let digits := s2.takeWhile (fun c => (decVal? c).isSome)
  let value : Nat := digits.foldl (fun acc c => acc * 10 + ((decVal? c).getD 0)) 0
  if neg then -(value : Int) else (value : Int)

/-- Upper-case hexadecimal digit. -/
def hexDigitUpper (n : Nat) : Char :=
  if n < 10 then Char.ofNat (48 + n) else Char.ofNat (55 + n)

/-- Minimal-width upper-case hex rendering (`printf "%X"`), via fuel on digits. -/
def hexUpperAux : Nat → Nat → CStr
  | 0, _ => []
  | _ + 1, 0 => []
  | fuel + 1, n => hexUpperAux fuel (n / 16) ++ [hexDigitUpper (n % 16)]

/-- `printf "%X"` of a 32-bit value. -/
def hexUpper (n : Nat) : CStr :=
  if n = 0 then strOf "0" else hexUpperAux 16 n

/-- `printf "%08X"` of a 32-bit value. -/
def hex8Upper (n : Nat) : CStr :=
  let digits := hexUpperAux 16 (n % 2 ^ 32)
  List.replicate (8 - digits.length) '0' ++ digits

/-- Minimal-width decimal rendering (`printf "%d"` for non-negative values). -/
def natToDecAux : Nat → Nat → CStr
  | 0, _ => []
  | _ + 1, 0 => []
  | fuel + 1, n => natToDecAux fuel (n / 10) ++ [Char.ofNat (48 + n % 10)]

/-- `printf "%d"` of a non-negative value. -/
def natToDec (n : Nat) : CStr :=
  if n = 0 then strOf "0" else natToDecAux 32 n

/-! ## Virtual memory access (`src/ui/xui/virtual-memory-access.c`) — claim C10 -/

/-- `XBOX_VIRTUAL_HIGH_MEMORY_END` (virtual-memory-access.h / xemu-patches.c). -/
def XBOX_VIRTUAL_HIGH_MEMORY_END : Nat := 0xFFFFFFFF

/-- `xemu_virtual_memory_is_valid_address`. -/
def xemu_virtual_memory_is_valid_address (addr : Nat) : Bool :=
  addr ≤ XBOX_VIRTUAL_HIGH_MEMORY_END

/-- The external CPU collaborator: whether `qemu_get_cpu(0)` is non-NULL and
whether `cpu_memory_rw_debug cpu addr buf size isWrite` returns 0 (success). -/
structure CpuEnv where
  cpuPresent : Bool
  rwDebugOk : Nat → Nat → Bool → Bool

/-- The error message classes written into the caller's buffer. -/
inductive VmError where
  | invalidAddress
  | noCpu
  | accessFailed
deriving DecidableEq

/-- Result of `xemu_virtual_memory_read` / `xemu_virtual_memory_write`:
the C `int` return value, the list of `cpu_memory_rw_debug` accesses
performed (address, size, isWrite), and the error message written to the
caller's buffer (`none` = buffer cleared to the empty string on success). -/
structure VmResult where
  ret : Nat
  accesses : List (Nat × Nat × Bool)
  errorMsg : Option VmError
deriving DecidableEq

/-- `xemu_virtual_memory_read` (virtual-memory-access.c, lines 41-78),
with the guest memory access itself abstracted by `CpuEnv`. -/
def xemu_virtual_memory_read (env : CpuEnv) (virtualAddr size : Nat) : VmResult :=
  if xemu_virtual_memory_is_valid_address virtualAddr = false then
    { ret := 0, accesses := [], errorMsg := some VmError.invalidAddress }
  else if env.cpuPresent = false then
    { ret := 0, accesses := [], errorMsg := some VmError.noCpu }
  else if env.rwDebugOk virtualAddr size false = true then
    { ret := 1, accesses := [(virtualAddr, size, false)], errorMsg := none }
  else
    { ret := 0, accesses := [(virtualAddr, size, false)], errorMsg := some VmError.accessFailed }

/-- `xemu_virtual_memory_write` (virtual-memory-access.c, lines 82-119). -/
def xemu_virtual_memory_write (env : CpuEnv) (virtualAddr size : Nat) : VmResult :=
  if xemu_virtual_memory_is_valid_address virtualAddr = false then
    { ret := 0, accesses := [], errorMsg := some VmError.invalidAddress }
  else if env.cpuPresent = false then
    { ret := 0, accesses := [], errorMsg := some VmError.noCpu }
  else if env.rwDebugOk virtualAddr size true = true then
    { ret := 1, accesses := [(virtualAddr, size, true)], errorMsg := none }
  else
    { ret := 0, accesses := [(virtualAddr, size, true)], errorMsg := some VmError.accessFailed }

/-! ## Saved-value store (`xemu-patches.c`, lines 1024-1105) — claim C9 -/

/-- `MAX_SAVED_VALUES`. -/
def MAX_SAVED_VALUES : Nat := 1024

/-- `SavedValueEntry` (xemu-patches.c, lines 1026-1032); `original_data`
plus `data_length` become a byte list. -/
structure SavedValueEntry where
  game_index : Int
  patch_index : Int
  address : Nat
  original_data : List Nat
deriving DecidableEq

/-- The global array `g_saved_values[0 .. g_saved_values_count)`. -/
abbrev SavedStore := List SavedValueEntry

/-- The identifying triple of a saved-value entry. -/
def savedKey (e : SavedValueEntry) : Int × Int × Nat :=
  (e.game_index, e.patch_index, e.address)

/-- Entry construction shorthand. -/
def mkSavedValueEntry (g p : Int) (a : Nat) (data : List Nat) : SavedValueEntry :=
  { game_index := g, patch_index := p, address := a, original_data := data }

/-- `find_saved_value` (lines 1038-1049): index of the first entry matching
the (game, patch, address) triple. -/
def find_saved_value (store : SavedStore) (g p : Int) (a : Nat) : Option Nat :=
  firstIdxWhere (fun e => e.game_index = g ∧ e.patch_index = p ∧ e.address = a) store

/-- `add_saved_value` (lines 1052-1079). Returns the index of the added or
updated entry (`none` models the NULL return when the store is full) and
the updated store. -/
def add_saved_value (store : SavedStore) (g p : Int) (a : Nat) (data : List Nat) :
    Option Nat × SavedStore :=
  if MAX_SAVED_VALUES ≤ store.length then
    (none, store)
  else
    match find_saved_value store g p a with
    | some i =>
      (some i, store.set i { game_index := g, patch_index := p, address := a,
                             original_data := data })
    | none =>
      (some store.length,
       store ++ [{ game_index := g, patch_index := p, address := a, original_data := data }])

/-- The swap-with-last removal used throughout the C code:
`g_saved_values[i] = g_saved_values[count-1]; count--` (the store is never
empty at a removal site; the empty case is the totality guard). -/
def saved_values_remove_at (store : SavedStore) (i : Nat) : SavedStore :=
  if h : store = [] then store
  else (store.set i (store.getLast h)).dropLast

/-- The removal loop shared by `xemu_patches_clear_saved_values_for_game`
(lines 1082-1096) and the cleanup in `xemu_patches_remove_patch`
(lines 3700-3712): scan forward, swap-removing every entry that satisfies
`cond` (the `i--` after a swap re-examines the swapped-in entry). -/
def saved_values_remove_matching (cond : SavedValueEntry → Bool) :
    SavedStore → Nat → SavedStore
  | store, i =>
    if h : i < store.length then
      if cond (store.get ⟨i, h⟩) then
        saved_values_remove_matching cond (saved_values_remove_at store i) i
      else
        saved_values_remove_matching cond store (i + 1)
    else store
termination_by store i => store.length - i
decreasing_by
  all_goals simp_wf
  · have hlen : (saved_values_remove_at store i).length = store.length - 1 := by
      unfold saved_values_remove_at
      rw [dif_neg (List.ne_nil_of_length_pos (Nat.lt_of_le_of_lt (Nat.zero_le i) h))]
      simp [List.length_set, List.length_dropLast]
    omega
  · omega

/-- `xemu_patches_clear_saved_values_for_game` (lines 1082-1096). -/
def xemu_patches_clear_saved_values_for_game (store : SavedStore) (g : Int) : SavedStore :=
  saved_values_remove_matching (fun e => e.game_index = g) store 0

/-- `xemu_patches_clear_all_saved_values` (lines 1099-1105). -/
def xemu_patches_clear_all_saved_values (_ : SavedStore) : SavedStore := []

/-- The saved-value store invariant of claim C9: at most 1024 entries and
no two entries with the same (game, patch, address) triple. -/
def SavedStoreWF (store : SavedStore) : Prop :=
  store.length ≤ MAX_SAVED_VALUES ∧ (store.map savedKey).Nodup

/-! ## Database data model (`xemu-patches.h`, lines 33-77) -/

/-- `XemuPatchAddressValue`: `value_data` plus `value_length` become a byte list. -/
structure PatchAV where
  address : Nat
  value_data : List Nat
deriving DecidableEq

/-- `XemuMemoryPatch`.  The string fields are non-NULL in every state the
parser or the mutators construct; `saved_original_values` and
`saved_value_lengths` are never read by the translated code and are omitted. -/
structure MemoryPatch where
  address_values : List PatchAV
  enabled : Bool
  name : CStr
  category : CStr
  author : CStr
  notes : CStr
  address_value_lines : List CStr
  save_replaced_values : Bool
deriving DecidableEq

/-- `XemuGamePatches`.  The three optional certificate fields stay NULL
(`none`) when the database file does not provide them. -/
structure GamePatches where
  game_title : CStr
  region : CStr
  title_id : CStr
  version : CStr
  alternate_title_id : Option CStr
  time_date : Option CStr
  disc_number : Option CStr
  patches : List MemoryPatch
  enabled : Bool
deriving DecidableEq

/-- `XemuPatchesDatabase` (`file_path` is irrelevant to the claims and omitted). -/
structure PatchesDatabase where
  games : List GamePatches
  dirty : Bool
deriving DecidableEq

/-! ## Guest memory model (for the patch apply/restore path) — claims C2, C3

`cpu_memory_rw_debug` outcomes are modelled per byte: a read (write) of
`len` bytes at `addr` succeeds iff every byte of the range is readable
(writable) and the address passes `xemu_virtual_memory_is_valid_address`
and a CPU is present, exactly the checks of `xemu_virtual_memory_read` /
`xemu_virtual_memory_write`.  A failed write leaves memory unchanged. -/

structure GuestMem where
  data : Nat → Nat
  readOk : Nat → Bool
  writeOk : Nat → Bool
  cpuPresent : Bool

/-- Every byte of `[addr, addr+len)` satisfies `f`. -/
def rangeOk (f : Nat → Bool) (addr len : Nat) : Bool :=
  (List.range len).all (fun i => f (addr + i))

/-- Success of `xemu_virtual_memory_read(addr, buf, len, ...)` over the
guest-memory model. -/
def vmReadOk (m : GuestMem) (addr len : Nat) : Bool :=
  xemu_virtual_memory_is_valid_address addr && m.cpuPresent && rangeOk m.readOk addr len

/-- The bytes a successful read returns. -/
def vmReadBytes (m : GuestMem) (addr len : Nat) : List Nat :=
  (List.range len).map (fun i => m.data (addr + i))

/-- Pointwise update of the byte content by a write. -/
def writeBytesFn (f : Nat → Nat) (addr : Nat) (bytes : List Nat) : Nat → Nat :=
  fun x => if addr ≤ x ∧ x < addr + bytes.length then bytes.getD (x - addr) (f x) else f x

/-- `xemu_virtual_memory_write` over the guest-memory model (used via
`write_direct_virtual_memory`, xemu-patches.c lines 151-162). -/
def vmWrite (m : GuestMem) (addr : Nat) (bytes : List Nat) : Bool × GuestMem :=
  if xemu_virtual_memory_is_valid_address addr && m.cpuPresent
      && rangeOk m.writeOk addr bytes.length then
    (true, { m with data := writeBytesFn m.data addr bytes })
  else
    (false, m)

/-! ## Patch application (`xemu-patches.c`, lines 1328-1505) -/

/-- `apply_single_patch_bytes` (lines 1328-1384).  All call sites pass
`original_value_buffer = NULL`, so the capture branch is dead and omitted;
the reset-monitoring bookkeeping touches only logging state and is omitted.
Returns (result, new memory, whether the memory write was attempted). -/
def apply_single_patch_bytes (m : GuestMem) (address : Nat) (value_data : List Nat) :
    Bool × GuestMem × Bool :=
  if value_data.length = 0 then
    (false, m, false)
  else if vmReadOk m address (min value_data.length 16) = false then
    -- the test read of MIN(value_length, 16) bytes failed: return before writing
    (false, m, false)
  else
    let (writeSuccess, m1) := vmWrite m address value_data
    (writeSuccess, m1, true)

/-- The body of the per-pair loop of `xemu_patches_apply_patch_with_save_restore`
(lines 1397-1425): optionally save the original bytes, then write the patch
bytes.  Returns the new memory, the new saved-value store, and whether this
pair's `apply_single_patch_bytes` succeeded. -/
def applyPairWithSave (srv : Bool) (g p : Int) (m : GuestMem) (store : SavedStore)
    (av : PatchAV) : GuestMem × SavedStore × Bool :=
  let store1 :=
    if srv = true then
      if vmReadOk m av.address av.value_data.length = true then
        (add_saved_value store g p av.address (vmReadBytes m av.address av.value_data.length)).2
      else
        store  -- read failed: original_values_saved = false, nothing recorded
    else store
  let (ok, m1, _) := apply_single_patch_bytes m av.address av.value_data
  (m1, store1, ok)

/-- Loop of `xemu_patches_apply_patch_with_save_restore` over the pairs. -/
def applyPairsWithSave (srv : Bool) (g p : Int) :
    List PatchAV → GuestMem → SavedStore → Bool → GuestMem × SavedStore × Bool
  | [], m, store, allSuccess => (m, store, allSuccess)
  | av :: rest, m, store, allSuccess =>
    let (m1, store1, ok) := applyPairWithSave srv g p m store av
    applyPairsWithSave srv g p rest m1 store1 (allSuccess && ok)

/-- `xemu_patches_apply_patch_with_save_restore` (lines 1387-1437).
`sysMemOk` models `get_system_memory() != NULL`; the patch pointer is
always non-NULL in the model. -/
def xemu_patches_apply_patch_with_save_restore (sysMemOk : Bool)
    (patch : MemoryPatch) (game_index patch_index : Int)
    (m : GuestMem) (store : SavedStore) : Bool × GuestMem × SavedStore :=
  if sysMemOk = false then
    (false, m, store)
  else
    let (m1, store1, allSuccess) :=
      applyPairsWithSave patch.save_replaced_values game_index patch_index
        patch.address_values m store true
    (allSuccess, m1, store1)

/-- The body of the per-pair loop of `xemu_patches_remove_patch_with_restore`
(lines 1457-1502).  The verification re-read after a successful restore has
no observable effect (its comparison result is discarded) and is omitted. -/
def restorePair (srv : Bool) (g p : Int) (m : GuestMem) (store : SavedStore)
    (av : PatchAV) : GuestMem × SavedStore × Bool :=
  if srv = true then
    match find_saved_value store g p av.address with
    | some i =>
      let savedData := (store.getD i ⟨0, 0, 0, []⟩).original_data
      let (restoreSuccess, m1, _) := apply_single_patch_bytes m av.address savedData
      (m1, saved_values_remove_at store i, restoreSuccess)
    | none => (m, store, true)
  else (m, store, true)

/-- Loop of `xemu_patches_remove_patch_with_restore` over the pairs. -/
def restorePairs (srv : Bool) (g p : Int) :
    List PatchAV → GuestMem → SavedStore → Bool → GuestMem × SavedStore × Bool
  | [], m, store, allSuccess => (m, store, allSuccess)
  | av :: rest, m, store, allSuccess =>
    let (m1, store1, ok) := restorePair srv g p m store av
    restorePairs srv g p rest m1 store1 (allSuccess && ok)

/-- `xemu_patches_remove_patch_with_restore` (lines 1440-1505). -/
def xemu_patches_remove_patch_with_restore (db : PatchesDatabase)
    (game_index patch_index : Nat) (m : GuestMem) (store : SavedStore) :
    Bool × GuestMem × SavedStore :=
  match db.games.get? game_index with
  | none => (false, m, store)
  | some game =>
    match game.patches.get? patch_index with
    | none => (false, m, store)
    | some patch =>
      let (m1, store1, allSuccess) :=
        restorePairs patch.save_replaced_values (game_index : Int) (patch_index : Int)
          patch.address_values m store true
      (allSuccess, m1, store1)

/-! ## Database serialization (`xemu_patches_save_database`, lines 2552-2701) — claim C4 -/

/-- `printf "%02X"` of a byte. -/
def hexByte2 (n : Nat) : CStr :=
  [hexDigitUpper (n % 256 / 16), hexDigitUpper (n % 16)]

/-- The canonical `0x%08X: 0x%s` line generated for a pair of a patch that
has no preserved source lines (lines 2670-2682). -/
def canonicalAVLine (av : PatchAV) : CStr :=
  strOf "      0x" ++ hex8Upper av.address ++ strOf ": 0x"
    ++ (av.value_data.map hexByte2).flatten

/-- The lines written for one patch (lines 2636-2685). -/
def serializePatch (patch : MemoryPatch) : List CStr :=
  [strOf "  Patch: " ++ patch.name,
   strOf "    Author: " ++ patch.author,
   strOf "    Category: " ++ patch.category]
  ++ (if patch.notes.length > 0 then [strOf "    Notes: " ++ patch.notes] else [])
  ++ [strOf "    Enabled: " ++ (if patch.enabled then strOf "1" else strOf "0"),
      strOf "    Save Replaced Values: " ++ (if patch.save_replaced_values then strOf "1" else strOf "0")]
  ++ (if patch.address_value_lines.length > 0 then
        strOf "    Memory Addresses:" :: patch.address_value_lines.map (fun l => strOf "      " ++ l)
      else if patch.address_values.length > 0 then
        strOf "    Memory Addresses:" :: patch.address_values.map canonicalAVLine
      else [])
  ++ [[]]

/-- The lines written for one game entry (lines 2606-2688). -/
def serializeGame (game : GamePatches) : List CStr :=
  [strOf "Game Entry",
   strOf "==========",
   strOf "title: " ++ game.game_title,
   strOf "title-id: " ++ game.title_id,
   strOf "region: " ++ game.region,
   strOf "version: " ++ game.version]
  ++ (match game.alternate_title_id with
      | some v => if v.length > 0 then [strOf "alternate-title-id: " ++ v] else []
      | none => [])
  ++ (match game.time_date with
      | some v => if v.length > 0 then [strOf "time-date: " ++ v] else []
      | none => [])
  ++ (match game.disc_number with
      | some v => if v.length > 0 then [strOf "disc-number: " ++ v] else []
      | none => [])
  ++ [[], strOf "Patches", strOf "======="]
  ++ (game.patches.map serializePatch).flatten
  ++ [[]]

/-- The full file content `xemu_patches_save_database` writes, as the list
of lines the loader's `fgets` will see (trailing newlines stripped). -/
def serializeDatabase (db : PatchesDatabase) : List CStr :=
  (db.games.map serializeGame).flatten

/-- External conditions for the PatchStore operations. -/
structure StoreEnv where
  gameRunning : Bool     -- is_game_currently_running()
  sysMemOk : Bool        -- get_system_memory() != NULL
  patchesLoaded : Bool   -- g_patches_loaded
  saveInProgress : Bool  -- g_save_in_progress at entry
  fileOpenOk : Bool      -- qemu_fopen(path, "w") and fclose succeed

/-- `xemu_patches_save_database` (lines 2552-2701): returns the C result,
the database (dirty cleared on success) and the file content written.
The C guards on `!g_patches_db.games`, the NULL array pointer; a database
that holds at least one game always has a non-NULL array, which is the
situation in every theorem below, so the guard is rendered as emptiness. -/
def xemu_patches_save_database (env : StoreEnv) (db : PatchesDatabase) :
    Bool × PatchesDatabase × Option (List CStr) :=
  if env.patchesLoaded = false then (false, db, none)
  else if env.saveInProgress = true then (false, db, none)
  else if db.games.isEmpty then (false, db, none)
  else if env.fileOpenOk = false then (false, db, none)
  else (true, { db with dirty := false }, some (serializeDatabase db))

/-! ## PatchStore mutators (`xemu-patches.c`, lines 3239-3934) — claims C5, C6 -/

/-- `xemu_patches_find_duplicate_game` (lines 3259-3277). -/
def xemu_patches_find_duplicate_game (loaded : Bool) (db : PatchesDatabase)
    (title_id version : CStr) : Int :=
  if loaded = false then -1
  else
    match firstIdxWhere (fun game =>
        game.title_id = title_id ∧ game.version = version) db.games with
    | some i => (i : Int)
    | none => -1

/-- The database mutation of `xemu_patches_add_game` (lines 3461-3488),
before the immediate save: append the new game and mark dirty. -/
def xemu_patches_add_game_core (db : PatchesDatabase)
    (title region title_id version alt td dn : CStr) : PatchesDatabase :=
  { games := db.games ++
      [{ game_title := title, region := region, title_id := title_id,
         version := version, alternate_title_id := some alt,
         time_date := some td, disc_number := some dn,
         patches := [], enabled := true }],
    dirty := true }

/-- `xemu_patches_add_game` (lines 3461-3496): append, mark dirty, then
immediately save (the save result does not affect the return value). -/
def xemu_patches_add_game (env : StoreEnv) (db : PatchesDatabase)
    (title region title_id version alt td dn : CStr) : Bool × PatchesDatabase :=
  let db1 := xemu_patches_add_game_core db title region title_id version alt td dn
  let (_, db2, _) := xemu_patches_save_database env db1
  (true, db2)

/-- `xemu_patches_remove_game` (lines 3498-3542).  The function frees the
game and compacts the array; it does not reference `g_saved_values`, so the
store argument is returned unchanged. -/
def xemu_patches_remove_game (db : PatchesDatabase) (game_index : Nat)
    (store : SavedStore) : Bool × PatchesDatabase × SavedStore :=
  if game_index < db.games.length then
    (true, { games := db.games.eraseIdx game_index, dirty := true }, store)
  else
    (false, db, store)

/-- `xemu_patches_update_game` (lines 3544-3573). -/
def xemu_patches_update_game (db : PatchesDatabase) (game_index : Nat)
    (title region title_id version alt td dn : CStr) : Bool × PatchesDatabase :=
  match db.games.get? game_index with
  | none => (false, db)
  | some game =>
    (true,
     { games := db.games.set game_index
         ({ game with game_title := title, region := region, title_id := title_id,
                      version := version, alternate_title_id := some alt,
                      time_date := some td, disc_number := some dn }),
       dirty := true })

/-- One line of the value text in `xemu_patches_parse_address_value_pairs`
(lines 4118-4197): skip leading spaces/tabs, reject `#`/`;` comment lines,
split at the first `:`, parse the address with `sscanf "%x"` and the
whitespace/comma-separated value tokens as bytes. -/
def parseOneAVLine (line : CStr) : Option PatchAV :=
  let t := line.dropWhile (fun c => c = ' ' || c = '\t')
  match t with
  | [] => none
  | c :: _ =>
    if c = '#' || c = ';' then none
    else
      match strChrSplit t ':' with
      | none => none
      | some (pre, post) =>
        let addrStr := strip pre
        let valueStr := strip post
        if addrStr.length = 0 || valueStr.length = 0 then none
        else
          match sscanfHex addrStr with
          | none => none
          | some addr =>
            let tokens := splitDropEmpty (fun c => c = ' ' || c = '\t' || c = ',') valueStr
            let bytes := tokens.filterMap (fun tok =>
              match sscanfHex tok with
              | some v => if v ≤ 0xFF then some v else none
              | none => none)
            if bytes.length = 0 then none
            else some { address := addr % 2 ^ 32, value_data := bytes }

/-- `xemu_patches_parse_address_value_pairs` (lines 4075-4222): the pairs
parsed from the text buffer (the C returns false only for NULL arguments or
allocation failure, outside the model). -/
def xemu_patches_parse_address_value_pairs (text : CStr) : List PatchAV :=
  (splitDropEmpty (fun c => c = '\n' || c = '\r') text).filterMap parseOneAVLine

/-- The source-line storage of `xemu_patches_add_patch` /
`xemu_patches_update_patch` (lines 3620-3645, 3812-3840): split the entered
text on newlines with `strtok`, dropping empty lines. -/
def splitAVTextLines (text : CStr) : List CStr :=
  splitDropEmpty (fun c => c = '\n') text

/-- `xemu_patches_add_patch` (lines 3576-3652). -/
def xemu_patches_add_patch (db : PatchesDatabase) (game_index : Nat)
    (name category author notes av_text : CStr) (srv : Bool) :
    Bool × PatchesDatabase :=
  match db.games.get? game_index with
  | none => (false, db)
  | some game =>
    let pairs := xemu_patches_parse_address_value_pairs av_text
    let newPatch : MemoryPatch :=
      { address_values := pairs, enabled := true, name := name,
        category := category, author := author, notes := notes,
        address_value_lines := splitAVTextLines av_text,
        save_replaced_values := srv }
    (true,
     { games := db.games.set game_index ({ game with patches := game.patches ++ [newPatch] }),
       dirty := true })

/-- `xemu_patches_update_patch` (lines 3717-3846): replace every field of
the patch, preserving only its enabled state. -/
def xemu_patches_update_patch (db : PatchesDatabase) (game_index patch_index : Nat)
    (name category author notes av_text : CStr) (srv : Bool) :
    Bool × PatchesDatabase :=
  match db.games.get? game_index with
  | none => (false, db)
  | some game =>
    match game.patches.get? patch_index with
    | none => (false, db)
    | some patch =>
      let pairs := xemu_patches_parse_address_value_pairs av_text
      let newPatch : MemoryPatch :=
        { address_values := pairs, enabled := patch.enabled, name := name,
          category := category, author := author, notes := notes,
          address_value_lines := splitAVTextLines av_text,
          save_replaced_values := srv }
      (true,
       { games := db.games.set game_index
           ({ game with patches := game.patches.set patch_index newPatch }),
         dirty := true })

/-- `xemu_patches_remove_patch` (lines 3654-3715): remove the patch, mark
dirty, then swap-remove every saved value recorded under the removed
(game_index, patch_index). -/
def xemu_patches_remove_patch (db : PatchesDatabase) (game_index patch_index : Nat)
    (store : SavedStore) : Bool × PatchesDatabase × SavedStore :=
  match db.games.get? game_index with
  | none => (false, db, store)
  | some game =>
    if patch_index < game.patches.length then
      (true,
       { games := db.games.set game_index
           ({ game with patches := game.patches.eraseIdx patch_index }),
         dirty := true },
       saved_values_remove_matching
         (fun e => e.game_index = (game_index : Int) ∧ e.patch_index = (patch_index : Int))
         store 0)
    else (false, db, store)

/-- `xemu_patches_set_patch_enabled` (lines 3848-3934).  Returns the C
result together with the new database, guest memory, saved-value store and
the queued notifications (in order). -/
def xemu_patches_set_patch_enabled (env : StoreEnv) (db : PatchesDatabase)
    (game_index patch_index : Nat) (enabled : Bool) (m : GuestMem)
    (store : SavedStore) :
    Bool × PatchesDatabase × GuestMem × SavedStore × List CStr :=
  match db.games.get? game_index with
  | none => (false, db, m, store, [])
  | some game =>
    match game.patches.get? patch_index with
    | none => (false, db, m, store, [])
    | some patch =>
      let oldEnabled := patch.enabled
      let newGame : GamePatches :=
        { game with patches := game.patches.set patch_index ({ patch with enabled := enabled }) }
      let db1 : PatchesDatabase := { db with games := db.games.set game_index newGame }
      if enabled = true ∧ oldEnabled = false ∧ env.gameRunning = false then
        -- "No game running - patch will apply on game load": early return true
        (true, db1, m, store,
         [strOf "No game running - patch will apply on game load"])
      else
        let (m1, store1, notes1) :
            GuestMem × SavedStore × List CStr :=
          if enabled = true ∧ oldEnabled = false then
            if patch.address_values.length > 0 then
              let (ok, m1, store1) :=
                xemu_patches_apply_patch_with_save_restore env.sysMemOk
                  { patch with enabled := enabled }
                  (game_index : Int) (patch_index : Int) m store
              (m1, store1,
               [if ok then strOf "Applied patch" else strOf "Failed to apply patch"])
            else (m, store, [])
          else if enabled = false ∧ oldEnabled = true then
            let (ok, m1, store1) :=
              xemu_patches_remove_patch_with_restore db1 game_index patch_index m store
            (m1, store1,
             [if ok then strOf "Removed patch" else strOf "Failed to properly remove patch"])
          else (m, store, [])
        let db2 : PatchesDatabase := { db1 with dirty := true }
        let (saveOk, db3, _) := xemu_patches_save_database env db2
        (true, db3, m1, store1,
         notes1 ++ (if saveOk then [strOf "Patch state change saved"] else []))

/-! ## Database loader (`xemu_patches_load_database`, lines 2265-2549,
with `parse_game_info` 1673-1853, `parse_game_patches` 1856-2262 and
`parse_patch_line` 1514-1670) — claim C4

The cursor-driven C loops are rendered as fuel-indexed recursions over the
suffix of the line list; every loop consumes at least one line per
iteration, so a fuel of twice the file length never runs out on the
concrete inputs of the theorems below. -/

/-- `strtoul(s, &endptr, 16)` with C `endptr` semantics: returns the value
and the tail at `endptr`.  When no conversion is performed the tail is the
original string (so an empty string yields value 0 with an empty tail). -/
def strtoulHexEnd (s : CStr) : Nat × CStr :=
  let s1 := s.dropWhile isSpaceChar
  match s1 with
  | '0' :: x :: rest =>
    if x = 'x' ∨ x = 'X' then
      let (v, n, tail) := takeHexDigits rest 0
      if n = 0 then (0, x :: rest) else (v, tail)
    else
      let (v, n, tail) := takeHexDigits s1 0
      if n = 0 then (0, s) else (v, tail)
  | _ =>
    let (v, n, tail) := takeHexDigits s1 0
    if n = 0 then (0, s) else (v, tail)

/-- Comment removal shared by the loader and the legacy parser
(lines 1525-1539, 2052-2067): truncate at the earlier of the first `#`
and the first `//`. -/
def truncAtComment (s : CStr) : CStr :=
  let hi := (strChrSplit s '#').map (fun pr => pr.1.length)
  let si := strStrIdx s (strOf "//")
  match hi, si with
  | some h, some sl => if h < sl then s.take h else s.take sl
  | some h, none => s.take h
  | none, some sl => s.take sl
  | none, none => s

/-- The hex-to-bytes loop of the loader's address lines (lines 2092-2116):
consecutive character pairs via `strtol` with the `*endptr` validity check;
`none` when any pair is invalid (the whole line is then dropped as a pair).
A trailing odd character is validity-checked (padded with '0') but its byte
is not counted, because the C code misses the `actual_len++` there. -/
def parseHexPairs : CStr → Option (List Nat)
  | [] => some []
  | [c] =>
    let (_, tail) := strtoulHexEnd [c, '0']
    if tail.length = 0 then some [] else none
  | c1 :: c2 :: rest =>
    let (v, tail) := strtoulHexEnd [c1, c2]
    if tail.length = 0 then
      match parseHexPairs rest with
      | some bs => some ((v % 256) :: bs)
      | none => none
    else none

/-- Parsing of one raw address line in the loader (lines 2049-2126):
comment-truncate, split at the first `:`, parse the address with the
`*endptr == '\0'` check, strip an optional `0x` from the value, convert the
hex pairs.  `none` when the line contributes no `AddressValuePair`. -/
def parseLoadedAVLine (raw : CStr) : Option PatchAV :=
  let pl := truncAtComment raw
  match strChrSplit pl ':' with
  | none => none
  | some (pre, post) =>
    let addrStr := strip pre
    let (addr, tail) := strtoulHexEnd addrStr
    if tail.length ≠ 0 then none
    else
      let valStr := strip post
      let valClean := if strHasPre valStr (strOf "0x") then valStr.drop 2 else valStr
      match parseHexPairs valClean with
      | some bytes => some { address := addr % 2 ^ 32, value_data := bytes }
      | none => none

/-- The `Memory Addresses:` inner loop (lines 2009-2131).  Every line that
is not skipped and does not end the loop is first stored verbatim
(trimmed) in the preserved-lines list, then parsed.  Returns the parsed
pairs, the stored lines, and the unconsumed remainder. -/
def loadAddrLoop : Nat → List CStr → List PatchAV → List CStr →
    List PatchAV × List CStr × List CStr
  | 0, lines, pairs, stored => (pairs, stored, lines)
  | _, [], pairs, stored => (pairs, stored, [])
  | fuel + 1, l :: rest, pairs, stored =>
    if l.length = 0 then
      loadAddrLoop fuel rest pairs stored
    else
      let t := strip l
      if t.length = 0 then
        loadAddrLoop fuel rest pairs stored
      else if strHasPre t (strOf "Patch:") then
        (pairs, stored, l :: rest)
      else if strHasPre t (strOf "Author:") || strHasPre t (strOf "Category:")
          || strHasPre t (strOf "Notes:") then
        loadAddrLoop fuel rest pairs stored
      else
        let stored1 := stored ++ [t]
        let pairs1 :=
          match parseLoadedAVLine l with
          | some av => pairs ++ [av]
          | none => pairs
        loadAddrLoop fuel rest pairs1 stored1

/-- Accumulator for one structured patch being parsed. -/
structure PatchAcc where
  name : CStr
  category : CStr
  author : CStr
  notes : CStr
  enabled : Bool
  srv : Bool
  avs : List PatchAV
  avLines : List CStr
deriving DecidableEq

/-- The value after the first `:` of a metadata line, if the character
after the colon is not the terminator (`colon && *(colon+1) != '\0'`). -/
def metaValue (meta : CStr) : Option CStr :=
  match strChrSplit meta ':' with
  | some (_, post) => if post.length = 0 then none else some (strip post)
  | none => none

/-- The patch-metadata loop (lines 1931-2172). Returns the accumulated
patch and the unconsumed remainder. -/
def loadMetaLoop : Nat → List CStr → PatchAcc → PatchAcc × List CStr
  | 0, lines, acc => (acc, lines)
  | _, [], acc => (acc, [])
  | fuel + 1, l :: rest, acc =>
    let meta := strip l
    if 1000 < meta.length then (acc, l :: rest)
    else if meta.length = 0 || strHasPre meta (strOf "Patches")
        || strHasPre meta (strOf "Game Entry") then
      (acc, l :: rest)
    else if strHasPre meta (strOf "Author:") then
      loadMetaLoop fuel rest
        (match metaValue meta with
         | some v => { acc with author := v }
         | none => acc)
    else if strHasPre meta (strOf "Category:") then
      loadMetaLoop fuel rest
        (match metaValue meta with
         | some v => { acc with category := v }
         | none => acc)
    else if strHasPre meta (strOf "Notes:") then
      loadMetaLoop fuel rest
        (match metaValue meta with
         | some v => { acc with notes := v }
         | none => acc)
    else if strHasPre meta (strOf "Enabled:") then
      loadMetaLoop fuel rest
        (match metaValue meta with
         | some v => if v.length = 0 then acc else { acc with enabled := atoi v ≠ 0 }
         | none => acc)
    else if strHasPre meta (strOf "Save Replaced Values:") then
      loadMetaLoop fuel rest
        (match metaValue meta with
         | some v => if v.length = 0 then acc else { acc with srv := atoi v ≠ 0 }
         | none => acc)
    else if strHasPre meta (strOf "Memory Addresses:") then
      let (pairs, stored, remaining) := loadAddrLoop fuel rest [] []
      ({ acc with avs := pairs, avLines := stored }, remaining)
    else
      loadMetaLoop fuel rest acc

/-- The patch built from a finished accumulator (lines 1902-2188). -/
def patchOfAcc (acc : PatchAcc) : MemoryPatch :=
  { address_values := acc.avs, enabled := acc.enabled, name := acc.name,
    category := acc.category, author := acc.author, notes := acc.notes,
    address_value_lines := acc.avLines, save_replaced_values := acc.srv }

/-- `parse_patch_line` (lines 1514-1670), the legacy compact format.
In the `name=...` form the C `strtok_r` chain takes the first four
colon-separated tokens; with fewer than four, the first token is the
address part and category/author/notes get defaults.  Comma chunks of the
address part that carry no colon are counted but left uninitialized by the
C code; the model renders those slots as `⟨0, []⟩`. -/
def parse_patch_line (line : CStr) : Option MemoryPatch :=
  match strChrSplit line '=' with
  | none =>
    let lc := truncAtComment line
    match strChrSplit lc ':' with
    | none => none
    | some (pre, post) =>
      let address := strtoulHexLoose (strip pre) % 2 ^ 32
      let hexStr := strip post
      let byteLen := (hexStr.length + 1) / 2
      let bytes := (List.range byteLen).map (fun b =>
        let c1 := hexStr.getD (2 * b) '0'
        let c2 := if 2 * b + 1 < hexStr.length then hexStr.getD (2 * b + 1) '0' else '0'
        strtoulHexLoose [c1, c2] % 256)
      some { address_values := [{ address := address, value_data := bytes }],
             enabled := true,
             name := strOf "Patch at 0x" ++ hex8Upper address,
             category := strOf "General", author := strOf "Unknown",
             notes := [], address_value_lines := [], save_replaced_values := false }
  | some (left, right) =>
    let name := strip left
    let tokens := splitDropEmpty (fun c => c = ':') (strip right)
    let (category, author, notes, addressesPart) : CStr × CStr × CStr × Option CStr :=
      if 4 ≤ tokens.length then
        (tokens.getD 0 [], tokens.getD 1 [], tokens.getD 2 [], some (tokens.getD 3 []))
      else
        match tokens.head? with
        | some t1 => (strOf "General", strOf "Unknown", [], some t1)
        | none => (strOf "General", strOf "Unknown", [], none)
    match addressesPart with
    | none => none
    | some addresses =>
      let chunks := splitDropEmpty (fun c => c = ',') addresses
      if chunks.length = 0 then none
      else
        let filled := chunks.filterMap (fun chunk =>
          match strChrSplit chunk ':' with
          | none => none
          | some (pre, post) =>
            let addr := strtoulHexLoose (strip pre) % 2 ^ 32
            let hexStr := strip post
            let byteLen := (hexStr.length + 1) / 2
            let bytes := (List.range byteLen).map (fun b =>
              let c1 := hexStr.getD (2 * b) '0'
              let c2 := if 2 * b + 1 < hexStr.length then hexStr.getD (2 * b + 1) '0' else '0'
              strtoulHexLoose [c1, c2] % 256)
            some ({ address := addr, value_data := bytes } : PatchAV))
        let pad : List PatchAV :=
          List.replicate (chunks.length - filled.length) { address := 0, value_data := [] }
        some { address_values := filled ++ pad, enabled := true,
               name := name, category := category, author := author, notes := notes,
               address_value_lines := [], save_replaced_values := false }

/-- The outer loop of `parse_game_patches` (lines 1866-2244). -/
def loadPatchesLoop : Nat → List CStr → List MemoryPatch
  | 0, _ => []
  | _, [] => []
  | fuel + 1, l :: rest =>
    let t := strip l
    if t.length = 0 || t.headD ' ' = '#' || (t.contains '=' ∧ ¬ t.contains ':') then
      -- separator lines (all '=', and vacuously the empty line) are skipped,
      -- anything else here ends the patch section
      if t.all (fun c => c = '=') then loadPatchesLoop fuel rest else []
    else if strHasPre t (strOf "Patch:") then
      let acc0 : PatchAcc :=
        { name := strip (t.drop 6), category := strOf "Other",
          author := strOf "Unknown", notes := [], enabled := true, srv := false,
          avs := [], avLines := [] }
      let (acc, remaining) := loadMetaLoop fuel rest acc0
      patchOfAcc acc :: loadPatchesLoop fuel remaining
    else if t.contains ':' ∧ t.contains '=' then
      match parse_patch_line t with
      | some p => p :: loadPatchesLoop fuel rest
      | none => loadPatchesLoop fuel rest
    else
      loadPatchesLoop fuel rest

/-- Accumulator of `parse_game_info`'s per-field parsing. -/
structure GameInfoAcc where
  title : Option CStr
  title_id : Option CStr
  region : Option CStr
  version : Option CStr
  alt : Option CStr
  td : Option CStr
  dn : Option CStr
deriving DecidableEq

/-- The trailing-quote cleanup applied only to the `title:` value
(lines 1704-1710), followed by the second `g_strstrip`. -/
def cleanTitleValue (v : CStr) : CStr :=
  strip ((v.reverse.dropWhile (fun c => c = '"' || c = '\x27')).reverse)

/-- A game-info field value: set only when the text after the colon is
non-empty and strips to a non-empty string. -/
def infoValue (trimmed : CStr) : Option CStr :=
  match metaValue trimmed with
  | some v => if v.length = 0 then none else some v
  | none => none

/-- The field loop of `parse_game_info` (lines 1678-1835). -/
def parse_game_info_lines : List CStr → GameInfoAcc → GameInfoAcc
  | [], acc => acc
  | line :: rest, acc =>
    let t := strip line
    if t.length = 0 || t.headD ' ' = '#' then
      parse_game_info_lines rest acc
    else if strHasPre t (strOf "Patches") then
      acc
    else if strHasPre t (strOf "title:") then
      parse_game_info_lines rest
        (match infoValue t with
         | some v => { acc with title := some (cleanTitleValue v) }
         | none => acc)
    else if strHasPre t (strOf "title-id:") then
      parse_game_info_lines rest
        (match infoValue t with
         | some v => { acc with title_id := some v }
         | none => acc)
    else if strHasPre t (strOf "region:") then
      parse_game_info_lines rest
        (match infoValue t with
         | some v => { acc with region := some v }
         | none => acc)
    else if strHasPre t (strOf "version:") then
      parse_game_info_lines rest
        (match infoValue t with
         | some v => { acc with version := some v }
         | none => acc)
    else if strHasPre t (strOf "alternate-title-id:") then
      parse_game_info_lines rest
        (match infoValue t with
         | some v => { acc with alt := some v }
         | none => acc)
    else if strHasPre t (strOf "time-date:") then
      parse_game_info_lines rest
        (match infoValue t with
         | some v => { acc with td := some v }
         | none => acc)
    else if strHasPre t (strOf "disc-number:") then
      parse_game_info_lines rest
        (match infoValue t with
         | some v => { acc with dn := some v }
         | none => acc)
    else
      -- "game-title=" and "enabled:" lines: the legacy title is subsumed by
      -- the defaults below and the parsed enabled value is overwritten by
      -- the unconditional `game->enabled = true` at line 1851
      parse_game_info_lines rest acc

/-- `parse_game_info` (lines 1673-1853): parse the fields, fill defaults,
and force the game-level enabled flag to true (line 1851). -/
def parse_game_info (lines : List CStr) : GamePatches :=
  let acc := parse_game_info_lines lines
    { title := none, title_id := none, region := none, version := none,
      alt := none, td := none, dn := none }
  { game_title := acc.title.getD (strOf "Unknown Game"),
    title_id := acc.title_id.getD (strOf "Unknown"),
    region := acc.region.getD (strOf "NTSC"),
    version := acc.version.getD (strOf "Unknown"),
    alternate_title_id := acc.alt, time_date := acc.td, disc_number := acc.dn,
    patches := [], enabled := true }

/-- Collect the lines of one game block (lines 2373-2410): consume from the
first line until the next `Game Entry` / `game-title=` header, tagging each
consumed line with whether the `Patches` section had started.  Returns the
tagged consumed lines and the unconsumed remainder. -/
def collectGameBlock : Nat → List CStr → Bool → Bool → List (CStr × Bool) × List CStr
  | 0, lines, _, _ => ([], lines)
  | _, [], _, _ => ([], [])
  | fuel + 1, l :: rest, isFirst, inPatch =>
    let t := strip l
    if isFirst = false ∧ (strHasPre t (strOf "Game Entry")
        ∨ (t.contains '=' ∧ strHasPre t (strOf "game-title="))) then
      ([], l :: rest)
    else
      let inPatch1 := inPatch || strHasPre t (strOf "Patches")
      let (cons, rem) := collectGameBlock fuel rest false inPatch1
      ((l, inPatch1) :: cons, rem)

/-- The game a block with no info lines yields: the C appends the
zero-initialized `XemuGamePatches` as is; NULL strings are rendered empty. -/
def zeroGame : GamePatches :=
  { game_title := [], title_id := [], region := [], version := [],
    alternate_title_id := none, time_date := none, disc_number := none,
    patches := [], enabled := false }

/-- The top-level game loop of `xemu_patches_load_database`
(lines 2338-2523).  After a block is collected the C decrements
`current_line`, so scanning resumes at the last consumed line. -/
def loadTopLoop : Nat → List CStr → List GamePatches
  | 0, _ => []
  | _, [] => []
  | fuel + 1, l :: rest =>
    let t := strip l
    if t.length = 0 || t.headD ' ' = '#' then
      loadTopLoop fuel rest
    else if strHasPre t (strOf "Game Entry") || t.contains '='
        || strHasPre t (strOf "title:") then
      let (cons, rem) := collectGameBlock (fuel + 1) (l :: rest) true false
      let infoLines := (cons.filter (fun cb => cb.2 = false)).map (fun cb => cb.1)
      let patchLines := (cons.filter (fun cb => cb.2 = true)).map (fun cb => cb.1)
      let game :=
        if infoLines.length = 0 then zeroGame
        else
          let g := parse_game_info infoLines
          if patchLines.length = 0 then g
          else { g with patches := loadPatchesLoop (patchLines.length + 1) patchLines }
      let resume :=
        match cons.getLast? with
        | some cb => cb.1 :: rem
        | none => rem
      game :: loadTopLoop fuel resume
    else
      loadTopLoop fuel rest

/-- `xemu_patches_load_database` on an existing, size-acceptable file, given
the file's lines (as `fgets` yields them, trailing newlines stripped).
Lines longer than 1000 characters are skipped at read time (line 2324). -/
def xemu_patches_load_database_lines (fileLines : List CStr) : PatchesDatabase :=
  let lines := fileLines.filter (fun l => l.length ≤ 1000)
  { games := loadTopLoop (2 * lines.length + 2) lines, dirty := false }

/-- Outcome of the Add Game button of `MainMenuPatchesView::DrawAddGameDialog`
(main-menu.cc, lines 2813-2858). -/
inductive AddGameOutcome where
  | fieldsMissing
  | duplicate (idx : Int)
  | added
deriving DecidableEq

/-- The Add Game click flow (main-menu.cc, lines 2813-2858): empty title or
title-id is refused; an exact (title-id, version) duplicate is refused with
an error naming the existing entry; otherwise the game is added. -/
def drawAddGameDialog_add (env : StoreEnv) (db : PatchesDatabase)
    (title region title_id version alt td dn : CStr) :
    AddGameOutcome × PatchesDatabase :=
  if title.length = 0 || title_id.length = 0 then
    (AddGameOutcome.fieldsMissing, db)
  else
    let existing := xemu_patches_find_duplicate_game env.patchesLoaded db title_id version
    if 0 ≤ existing then
      (AddGameOutcome.duplicate existing, db)
    else
      let (_, db1) := xemu_patches_add_game env db title region title_id version alt td dn
      (AddGameOutcome.added, db1)

/-! ## Engine state (the file-scope globals and function-local statics of
`xemu-patches.c`) — claims C1, C7, C8

Fields carry the C variable names; `mlu_`, `dmr_`, `dvrc_`, `ppru_`,
`sldc_` mark function-local statics of `xemu_patches_main_loop_update`,
`detect_manual_reset`, `detect_vm_reset_completion`,
`xemu_patches_process_post_reset_tick` and `set_load_disc_completed`.
Attempted guest writes and queued notifications accumulate in
`log_writes` / `log_notifications`.  Variables that are only written and
never read by the translated code (`g_xbe_cache.frame_last_read`,
`g_last_cert_read_time`, the reset-monitoring data arrays, log-only
counters) are omitted. -/

structure EngineState where
  db : PatchesDatabase
  mem : GuestMem
  saved : SavedStore
  crashed : Bool
  log_writes : List (Nat × List Nat × Bool)
  log_notifications : List CStr
  patches_loaded : Bool
  patches_initialized : Bool
  last_cert_title_id : Nat
  last_cert_region : Nat
  last_cert_version : Nat
  cert_data_valid : Bool
  xbe_cache_valid : Bool
  xbe_cache_last_read_time : Nat
  xbe_cache_title_id : Nat
  xbe_cache_region : Nat
  xbe_cache_version : Nat
  force_fresh_xbe_read : Bool
  load_disc_stuck_counter : Nat
  cached_last_invalid_time : Nat
  load_disc_cooldown_frames : Nat
  load_disc_in_progress : Bool
  load_disc_retry_pending : Bool
  last_invalid_title_id : Nat
  last_invalid_read_time : Int
  invalid_read_count : Nat
  file_last_notified_title_id : Nat
  file_last_notification_time : Nat
  notification_generation_active : Bool
  disc_present : Bool
  patch_system_enabled : Bool
  patches_applied_for_current_cert : Bool
  last_patch_application_title_id : Nat
  auto_boot_processing_active : Bool
  sldc_last_processed_title_id : Nat
  last_applied_title_id : Nat
  last_applied_region : Nat
  last_applied_version : Nat
  last_reset_detection_time : Int
  last_seen_for_reset_detection : Nat
  manual_reset_detected : Bool
  reset_detected_in_progress : Bool
  reset_detection_count : Nat
  last_reset_detection_time_prevent_loop : Int
  dmr_certificate_was_available_prev : Bool
  dmr_certificate_unavailable_start_time : Int
  dmr_prev_title_id_during_unavailable : Nat
  dmr_last_certificate_check_time : Int
  last_seen_title_id : CStr
  last_seen_region : CStr
  last_seen_version : CStr
  certificate_tracking_enabled : Bool
  suppress_patch_notification : Bool
  mlu_call_count : Nat
  mlu_last_log_time : Nat
  mlu_frame_counter : Nat
  mlu_last_logged_title_id : Nat
  mlu_notification_counter : Nat
  mlu_last_notified_title_id : Nat
  mlu_last_notification_time : Int
  mlu_last_simple_apply_time : Int
  mlu_last_simple_apply_text : CStr
  post_reset_patch_scheduled : Bool
  post_reset_retry_count : Nat
  post_reset_system_active : Bool
  post_reset_patch_application_active : Bool
  post_reset_current_title_id : Nat
  post_reset_start_time : Nat
  post_reset_call_count : Nat
  immediate_trigger_checked : Bool
  vm_reset_triggered : Bool
  vm_reset_completed : Bool
  vm_reset_completion_time : Nat
  reset_monitoring_active : Bool
  post_reset_crash_protection_active : Bool
  dvrc_last_log_time : Nat
  dvrc_call_count : Nat
  ppru_call_count : Nat
  ppru_last_notification_hash : Nat
  ppru_last_notification_time : Nat
  startup_retry_count : Nat
  last_startup_retry_time : Nat
  startup_retry_enabled : Bool
  last_auto_applied_title_id : Nat
  last_auto_applied_region : Nat
  last_auto_applied_version : Nat
  last_auto_applied_patch_count : Int

/-- The external collaborators consulted during one call from the host
loop: `SDL_GetTicks()` (ms), `time(NULL)` (s), the certificate of the
currently loaded XBE (`xemu_get_xbe_info`), and the outcome of the probes
in `is_game_currently_running`. -/
structure TickEnv where
  now : Nat
  nowSec : Int
  xbeCert : Option (Nat × Nat × Nat)
  sysMemOk : Bool
  gameRunningMem : Bool

/-- `is_valid_xbox_title_id` (lines 56-61). -/
def is_valid_xbox_title_id (title_id : Nat) : Bool :=
  title_id ≠ 0xFFFF0002 && title_id ≠ 0xFFFE0000 && title_id ≠ 0x00000000
    && title_id ≠ 0xFFFFFFFF

/-- `is_game_currently_running` (lines 1112-1125): system memory present
and the probe read at 0x00010000 succeeds. -/
def is_game_currently_running (env : TickEnv) : Bool :=
  env.sysMemOk && env.gameRunningMem

/-- An attempted guest write via `apply_single_patch_bytes`, logged. -/
def engApplySingle (s : EngineState) (addr : Nat) (bytes : List Nat) :
    EngineState × Bool :=
  let (ok, m1, attempted) := apply_single_patch_bytes s.mem addr bytes
  ({ s with mem := m1,
            log_writes := s.log_writes ++ (if attempted then [(addr, bytes, ok)] else []) },
   ok)

/-- A direct guest write via `write_direct_virtual_memory`, logged. -/
def engWriteDirect (s : EngineState) (addr : Nat) (bytes : List Nat) :
    EngineState × Bool :=
  let (ok, m1) := vmWrite s.mem addr bytes
  ({ s with mem := m1, log_writes := s.log_writes ++ [(addr, bytes, ok)] }, ok)

/-- `reset_notification_tracking_for_new_game` (lines 1162-1169). -/
def reset_notification_tracking_for_new_game (s : EngineState) : EngineState :=
  { s with file_last_notified_title_id := 0, file_last_notification_time := 0,
           notification_generation_active := false }

/-- `clear_certificate_cache_internal` (lines 1133-1144). -/
def clear_certificate_cache_internal (s : EngineState) : EngineState :=
  { s with xbe_cache_valid := false, xbe_cache_last_read_time := 0,
           force_fresh_xbe_read := true, cert_data_valid := false,
           last_cert_title_id := 0xFFFFFFFF, last_cert_region := 0xFFFFFFFF,
           last_cert_version := 0xFFFFFFFF }

/-- `invalidate_certificate_cache` (lines 1147-1154). -/
def invalidate_certificate_cache (s : EngineState) : EngineState :=
  reset_notification_tracking_for_new_game (clear_certificate_cache_internal s)

/-- `reset_last_applied_tracking` (lines 4017-4031). -/
def reset_last_applied_tracking (s : EngineState) : EngineState :=
  { s with last_applied_title_id := 0, last_applied_region := 0,
           last_applied_version := 0, last_cert_title_id := 0,
           last_cert_region := 0, last_cert_version := 0, cert_data_valid := false }

/-- `get_cached_xbe_info` (lines 1172-1276).  Returns the certificate
triple on success; the C writes the out parameters only on the successful
path at the end. -/
def get_cached_xbe_info (env : TickEnv) (s : EngineState) :
    EngineState × Option (Nat × Nat × Nat) :=
  let readCache : EngineState → EngineState × Option (Nat × Nat × Nat) := fun s =>
    if s.xbe_cache_valid then
      (s, some (s.xbe_cache_title_id, s.xbe_cache_region, s.xbe_cache_version))
    else (s, none)
  let need_fresh := (5000 ≤ env.now - s.xbe_cache_last_read_time)
    || s.xbe_cache_valid = false || s.force_fresh_xbe_read
  if need_fresh then
    let s :=
      if s.load_disc_in_progress then
        let c := s.load_disc_stuck_counter + 1
        if 60 < c then
          { s with load_disc_in_progress := false, load_disc_retry_pending := false,
                   load_disc_stuck_counter := 0 }
        else { s with load_disc_stuck_counter := c }
      else { s with load_disc_stuck_counter := 0 }
    if s.load_disc_in_progress then (s, none)
    else
      match env.xbeCert with
      | none => ({ s with xbe_cache_valid := false }, none)
      | some (tid, reg, ver) =>
        if (tid ≠ 0 && tid ≠ 0xFFFF0002 && tid ≠ 0xFFFE0000 && tid ≠ 0xFFFFFFFF) = false then
          let s :=
            if 2000 < env.now - s.cached_last_invalid_time then
              { s with force_fresh_xbe_read := true, cached_last_invalid_time := env.now }
            else s
          (s, none)
        else
          let s := { s with xbe_cache_title_id := tid, xbe_cache_region := reg,
                            xbe_cache_version := ver, xbe_cache_valid := true,
                            xbe_cache_last_read_time := env.now,
                            force_fresh_xbe_read := false }
          -- the `g_force_fresh_xbe_read && !g_post_reset_patch_scheduled` arm at
          -- line 1254 is unreachable (the flag was just cleared); only the
          -- cooldown decrement arm can act
          if 0 < s.load_disc_cooldown_frames then
            ({ s with load_disc_cooldown_frames := s.load_disc_cooldown_frames - 1 }, none)
          else readCache s
  else readCache s

/-- `get_cached_xbe_info_with_spam_prevention` (lines 670-756).
`callerInit` is the value of the caller's out variables before the call
(the C leaves them untouched on unsuccessful inner reads).  Returns the
new state, the C result, the out values, and whether one of the two early
"block this read" returns was taken. -/
def get_cached_xbe_info_with_spam_prevention (env : TickEnv)
    (callerInit : Nat × Nat × Nat) (s : EngineState) :
    EngineState × Bool × (Nat × Nat × Nat) × Bool :=
  let (s, res) := get_cached_xbe_info env s
  let out := res.getD callerInit
  let (tid, reg, ver) := out
  let result := res.isSome
  if result ∧ tid ≠ 0 then
    let s := { s with invalid_read_count := 0, last_invalid_title_id := 0 }
    let s :=
      if is_valid_xbox_title_id tid then
        let was_valid := s.cert_data_valid
        let old_title_id := s.last_cert_title_id
        let s := { s with last_cert_title_id := tid, last_cert_region := reg,
                          last_cert_version := ver, cert_data_valid := true,
                          disc_present := true }
        if was_valid ∧ old_title_id ≠ tid then
          reset_notification_tracking_for_new_game s
        else s
      else s
    (s, result, out, false)
  else if tid ≠ 0 then
    let s := { s with invalid_read_count := s.invalid_read_count + 1 }
    let s :=
      if (tid = 0xFFFE0000 ∨ tid = 0xFFFF0002) ∧ 5 < s.invalid_read_count
          ∧ s.cert_data_valid then
        { s with last_cert_title_id := 0, last_cert_region := 0, last_cert_version := 0,
                 cert_data_valid := false, disc_present := false }
      else s
    if tid = s.last_invalid_title_id then
      if 5 < s.invalid_read_count ∧ env.nowSec - s.last_invalid_read_time < 10000 then
        (s, false, out, true)
      else if tid = 0xFFFE0000 ∧ 5 < s.invalid_read_count then
        (s, false, out, true)
      else
        ({ s with last_invalid_title_id := tid, last_invalid_read_time := env.nowSec },
         result, out, false)
    else
      ({ s with invalid_read_count := 1, last_invalid_title_id := tid,
                last_invalid_read_time := env.nowSec },
       result, out, false)
  else
    (s, result, out, false)

/-- `apply_patches_for_auto_boot` (lines 908-973).  Note: when no matching
game is found the C returns without clearing `g_auto_boot_processing_active`
(line 948) and without setting the applied flag; the validation failure at
line 929 likewise leaves the processing flag set. -/
def apply_patches_for_auto_boot (s : EngineState) : EngineState :=
  if s.auto_boot_processing_active then s
  else if s.patches_applied_for_current_cert ∧ s.last_cert_title_id ≠ 0 then s
  else
    let s := { s with auto_boot_processing_active := true }
    if s.patch_system_enabled = false ∨ s.cert_data_valid = false
        ∨ s.last_cert_title_id = 0 then
      s
    else
      let tidStr := hex8Upper s.last_cert_title_id
      match firstIdxWhere (fun g => strCaseEq g.title_id tidStr = true) s.db.games with
      | none => s
      | some _ =>
        { s with patches_applied_for_current_cert := true,
                 auto_boot_processing_active := false }

/-- `auto_enable_patches_when_ready` (lines 864-899). -/
def auto_enable_patches_when_ready (s : EngineState) : EngineState :=
  if s.load_disc_in_progress then s
  else
    let s :=
      if s.cert_data_valid ∧ s.last_cert_title_id ≠ 0 ∧ s.patch_system_enabled = false then
        let s := { s with disc_present := true, patch_system_enabled := true }
        if s.patches_applied_for_current_cert = false then
          apply_patches_for_auto_boot { s with patches_applied_for_current_cert := true }
        else s
      else s
    if s.cert_data_valid ∧ s.last_cert_title_id ≠ 0 ∧ s.patch_system_enabled
        ∧ s.patches_applied_for_current_cert = false then
      apply_patches_for_auto_boot { s with patches_applied_for_current_cert := true }
    else s

/-- `update_disc_presence_state` (lines 984-1016). -/
def update_disc_presence_state (s : EngineState) (discPresent : Bool) : EngineState :=
  if discPresent ∧ s.disc_present = false then
    let s := { s with disc_present := true, patch_system_enabled := true,
                      force_fresh_xbe_read := true }
    let s :=
      if s.cert_data_valid ∧ s.last_cert_title_id ≠ 0 then
        { s with cert_data_valid := false, last_cert_title_id := 0,
                 last_cert_region := 0, last_cert_version := 0,
                 patches_applied_for_current_cert := false }
      else s
    auto_enable_patches_when_ready s
  else if discPresent = false ∧ s.disc_present then
    { s with disc_present := false, patch_system_enabled := false,
             cert_data_valid := false, last_cert_title_id := 0,
             last_cert_region := 0, last_cert_version := 0,
             patches_applied_for_current_cert := false }
  else s

/-- `set_load_disc_completed` (lines 417-479). -/
def set_load_disc_completed (s : EngineState) : EngineState :=
  let s :=
    if s.cert_data_valid ∧ s.last_cert_title_id ≠ 0 then
      { s with last_cert_title_id := 0, last_cert_region := 0, last_cert_version := 0,
               cert_data_valid := false, patches_applied_for_current_cert := false }
    else s
  let s := { s with xbe_cache_valid := false, xbe_cache_last_read_time := 0,
                    force_fresh_xbe_read := true, load_disc_in_progress := false,
                    load_disc_retry_pending := true }
  let s := update_disc_presence_state s true
  if s.cert_data_valid ∧ s.last_cert_title_id ≠ 0 then
    let is_new_game := s.sldc_last_processed_title_id ≠ s.last_cert_title_id
      ∨ s.patches_applied_for_current_cert = false
    if is_new_game = false then s
    else
      let s := { s with patches_applied_for_current_cert := false,
                        sldc_last_processed_title_id := s.last_cert_title_id,
                        disc_present := true }
      auto_enable_patches_when_ready s
  else { s with sldc_last_processed_title_id := 0 }

/-- `enable_certificate_tracking` (lines 4570-4576). -/
def enable_certificate_tracking (s : EngineState) : EngineState :=
  if s.certificate_tracking_enabled = false then
    { s with certificate_tracking_enabled := true, suppress_patch_notification := false }
  else s

/-- The region string of `xemu_patches_find_game_by_certificate`
(lines 2889-2896). -/
def certRegionStr (reg : Nat) : CStr :=
  if reg = 0x1 then strOf "NTSC-U"
  else if reg = 0x2 then strOf "NTSC-J"
  else if reg = 0x4 then strOf "NTSC-K"
  else if reg = 0x8 then strOf "PAL"
  else strOf "0x" ++ hex8Upper reg

/-- The version string `%d.%d.%d.%d` of the certificate version word
(lines 2898-2904). -/
def certVersionStr (ver : Nat) : CStr :=
  natToDec (ver / 2 ^ 24 % 256) ++ strOf "." ++ natToDec (ver / 2 ^ 16 % 256)
    ++ strOf "." ++ natToDec (ver / 2 ^ 8 % 256) ++ strOf "." ++ natToDec (ver % 256)

/-- The `%X.%X.%X.%X` tracking string (lines 2938-2940). -/
def certVersionStrHex (ver : Nat) : CStr :=
  hexUpper (ver / 2 ^ 24 % 256) ++ strOf "." ++ hexUpper (ver / 2 ^ 16 % 256)
    ++ strOf "." ++ hexUpper (ver / 2 ^ 8 % 256) ++ strOf "." ++ hexUpper (ver % 256)

/-- The `strncpy` updates of the last-seen certificate strings
(buffer sizes 17, 8 and 32, hence truncation to 16, 7 and 31 characters). -/
def updateLastSeen (s : EngineState) (tid reg ver : CStr) : EngineState :=
  { s with last_seen_title_id := tid.take 16, last_seen_region := reg.take 7,
           last_seen_version := ver.take 31 }

/-- `xemu_patches_find_game_by_certificate` (lines 2817-3023), returning
the index of the matched game.  The C guards on the NULL games array
pointer (line 2833); a database holding at least one game has a non-NULL
array, which covers every state in the theorems below. -/
def xemu_patches_find_game_by_certificate (env : TickEnv) (s : EngineState) :
    EngineState × Option Nat :=
  if s.load_disc_in_progress then (s, none)
  else
    let (s, res) := get_cached_xbe_info env s
    match res with
    | none => (s, none)
    | some (tid0, reg0, ver0) =>
      if s.db.games.length = 0 then (s, none)
      else
        let (s, tid, reg, ver) :=
          if s.cert_data_valid ∧ (tid0 ≠ s.last_cert_title_id ∨ reg0 ≠ s.last_cert_region
              ∨ ver0 ≠ s.last_cert_version) then
            let s := clear_certificate_cache_internal s
            let s := invalidate_certificate_cache s
            let s := reset_last_applied_tracking s
            match env.xbeCert with
            | some (t, r, v) => (s, t, r, v)
            | none => (s, tid0, reg0, ver0)
          else (s, tid0, reg0, ver0)
        let s :=
          if tid ≠ s.last_cert_title_id then
            { s with patches_applied_for_current_cert := false, disc_present := true }
          else s
        let s := { s with last_cert_title_id := tid, last_cert_region := reg,
                          last_cert_version := ver, cert_data_valid := true }
        let s := auto_enable_patches_when_ready s
        let regionStr := certRegionStr reg
        let versionStr := certVersionStr ver
        let tidStr := hex8Upper tid
        match firstIdxWhere (fun g =>
            g.enabled = true ∧ g.title_id = tidStr ∧ g.region = regionStr
              ∧ g.version = versionStr) s.db.games with
        | none => (s, none)
        | some gi =>
          let curTid := hex8Upper tid
          let curReg := hexUpper reg
          let curVer := certVersionStrHex ver
          let s := enable_certificate_tracking s
          let cert_changed := s.last_seen_title_id ≠ curTid.take 16
            ∨ s.last_seen_region ≠ curReg.take 7 ∨ s.last_seen_version ≠ curVer.take 31
          if cert_changed = false then
            if s.manual_reset_detected then
              ({ s with manual_reset_detected := false,
                        suppress_patch_notification := false }, some gi)
            else if s.patches_applied_for_current_cert
                ∧ s.post_reset_patch_application_active then
              (updateLastSeen { s with patches_applied_for_current_cert := false,
                                       suppress_patch_notification := false }
                 curTid curReg curVer, some gi)
            else
              (updateLastSeen { s with suppress_patch_notification := true }
                 curTid curReg curVer, some gi)
          else
            (updateLastSeen { s with suppress_patch_notification := false }
               curTid curReg curVer, some gi)

/-- `detect_manual_reset` (lines 4588-4701). -/
def detect_manual_reset (env : TickEnv) (s0 : EngineState) : EngineState :=
  let (s, result, out, _) := get_cached_xbe_info_with_spam_prevention env (0, 0, 0) s0
  let (tid, reg, ver) := out
  let tailUpdate : EngineState → EngineState := fun s =>
    { s with last_seen_for_reset_detection := tid,
             last_reset_detection_time := env.nowSec,
             dmr_last_certificate_check_time := env.nowSec,
             dmr_certificate_was_available_prev := true,
             dmr_prev_title_id_during_unavailable := tid }
  if result = false then
    let s :=
      if s.dmr_certificate_was_available_prev = false then
        { s with dmr_certificate_unavailable_start_time := env.nowSec }
      else s
    { s with dmr_certificate_was_available_prev := false }
  else
    let method1 := s.dmr_certificate_was_available_prev = false
      ∧ tid = s.dmr_prev_title_id_during_unavailable ∧ tid ≠ 0
      ∧ s.dmr_prev_title_id_during_unavailable ≠ 0
    let is_same_title := tid = s.last_applied_title_id
    let tSince : Int :=
      if 0 < s.dmr_last_certificate_check_time then
        env.nowSec - s.dmr_last_certificate_check_time
      else 0
    let detected :=
      if method1 then true
      else if is_same_title ∧ (reg ≠ s.last_applied_region ∨ ver ≠ s.last_applied_version) then
        true
      else if is_same_title ∧ 1 ≤ tSince ∧ tSince ≤ 3 then true
      else false
    if detected then
      let s1 := { s with reset_detection_count := s.reset_detection_count + 1 }
      let tSinceDet : Int :=
        if 0 < s1.last_reset_detection_time_prevent_loop then
          env.nowSec - s1.last_reset_detection_time_prevent_loop
        else 999
      if s1.reset_detected_in_progress ∨ (tSinceDet < 10 ∧ 1 < s1.reset_detection_count) then
        s1  -- early return: no manual-reset flag, no tail updates
      else
        tailUpdate
          { s1 with suppress_patch_notification := false,
                    reset_detected_in_progress := true,
                    last_reset_detection_time_prevent_loop := env.nowSec,
                    manual_reset_detected := true,
                    last_applied_region := reg, last_applied_version := ver }
    else tailUpdate s

/-- `schedule_post_reset_patch_application` (lines 4709-4734). -/
def schedule_post_reset_patch_application (s : EngineState) : EngineState :=
  let s := { s with post_reset_system_active := true }
  let s :=
    if s.post_reset_patch_scheduled then
      { s with reset_monitoring_active := false, post_reset_patch_scheduled := false,
               post_reset_retry_count := 0 }
    else s
  { s with last_auto_applied_title_id := 0, last_auto_applied_region := 0,
           last_auto_applied_version := 0, last_auto_applied_patch_count := -1,
           post_reset_patch_scheduled := true, post_reset_retry_count := 0,
           vm_reset_completed := false, vm_reset_completion_time := 0,
           reset_monitoring_active := true }

/-- `check_startup_retry_detection` (lines 816-850). -/
def check_startup_retry_detection (env : TickEnv) (s : EngineState) : EngineState :=
  if s.startup_retry_enabled = false then s
  else if env.now - s.last_startup_retry_time < 2000 then s
  else
    let s := { s with last_startup_retry_time := env.now,
                      startup_retry_count := s.startup_retry_count + 1 }
    let (s, found, out, _) := get_cached_xbe_info_with_spam_prevention env (0, 0, 0) s
    let (tid, reg, ver) := out
    if found ∧ is_valid_xbox_title_id tid then
      let s := { s with last_cert_title_id := tid, last_cert_region := reg,
                        last_cert_version := ver, cert_data_valid := true,
                        disc_present := true, patch_system_enabled := true,
                        startup_retry_enabled := false }
      apply_patches_for_auto_boot s
    else if 5 ≤ s.startup_retry_count then { s with startup_retry_enabled := false }
    else s

/-- The pair loop of the main-loop apply pass (lines 4364-4372):
`apply_single_patch_bytes` per pair, breaking on the first failure. -/
def mainLoopApplyPairs (s : EngineState) : List PatchAV → EngineState × Bool
  | [] => (s, true)
  | av :: rest =>
    let (s1, ok) := engApplySingle s av.address av.value_data
    if ok then mainLoopApplyPairs s1 rest else (s1, false)

/-- The patch loop of the main-loop apply pass (lines 4358-4378):
count a patch as applied when every pair write succeeded (a patch with no
pairs counts as applied). -/
def mainLoopApplyPatches (s : EngineState) : List MemoryPatch → EngineState × Nat
  | [] => (s, 0)
  | patch :: rest =>
    if patch.enabled then
      let (s1, ok) := mainLoopApplyPairs s patch.address_values
      let (s2, n) := mainLoopApplyPatches s1 rest
      (s2, (if ok then 1 else 0) + n)
    else mainLoopApplyPatches s rest

/-- The notification text of the main-loop pass (lines 4413-4425). -/
def mainLoopNotificationText (isReset : Bool) (appliedCount : Nat) (title : CStr) : CStr :=
  (if isReset then strOf "Reset: Applied " else strOf "Applied ")
    ++ natToDec appliedCount
    ++ (if appliedCount = 1 then strOf " patch" else strOf " patches")
    ++ strOf " for " ++ title

/-- The notification block of the main-loop pass (lines 4399-4491),
entered only when `applied_count > 0` and after the last-applied tracking
was updated.  The two inner early returns leave
`g_notification_generation_active` set. -/
def mainLoopNotify (env : TickEnv) (s : EngineState) (wasManualReset : Bool)
    (appliedCount : Nat) (title : CStr) : EngineState :=
  let text := mainLoopNotificationText wasManualReset appliedCount title
  let s := { s with mlu_notification_counter := s.mlu_notification_counter + 1 }
  if s.notification_generation_active then s
  else
    let s := { s with notification_generation_active := true }
    let ct2 := s.last_cert_title_id
    let tsn : Int :=
      if 0 < s.mlu_last_notification_time then env.nowSec - s.mlu_last_notification_time
      else 18446744073709551615
    if ct2 ≠ 0 ∧ s.mlu_last_notified_title_id = ct2 ∧ tsn < 3000 then s
    else if env.nowSec - s.mlu_last_simple_apply_time < 2000
        ∧ text = s.mlu_last_simple_apply_text then s
    else
      { s with mlu_last_simple_apply_text := text,
               mlu_last_simple_apply_time := env.nowSec,
               mlu_last_notified_title_id := ct2,
               mlu_last_notification_time := env.nowSec,
               log_notifications := s.log_notifications ++ [text],
               notification_generation_active := false }

/-- The certificate-change cache invalidation of the main loop
(lines 4306-4320). -/
def mainLoopNewGameReset (s : EngineState) : EngineState :=
  { s with xbe_cache_valid := false, xbe_cache_last_read_time := 0,
           force_fresh_xbe_read := true, cert_data_valid := false,
           last_cert_title_id := 0, last_cert_region := 0,
           last_cert_version := 0 }

/-- The decision phase of `xemu_patches_main_loop_update` after a
successful certificate read of (tid, reg, ver) and the manual-reset
detector (lines 4296-4508): scheduling on a detected reset, the
new-game guard against the last-applied triple, the game lookup, the
apply pass and the last-applied tracking updates. -/
def mainLoopCertPhase (env : TickEnv) (s' : EngineState)
    (tid reg ver : Nat) : EngineState :=
  let s := s'
  let is_new_game := tid ≠ 0 ∧ (tid ≠ s.last_applied_title_id
    ∨ reg ≠ s.last_applied_region ∨ ver ≠ s.last_applied_version)
  let s := if is_new_game then mainLoopNewGameReset s else s
  if s.manual_reset_detected then
    let s := { s with suppress_patch_notification := false }
    let s := schedule_post_reset_patch_application s
    { s with manual_reset_detected := false }
  else if s.post_reset_patch_application_active then s
  else if s.load_disc_in_progress then s
  else if is_new_game ∧ s.patches_loaded ∧ s.patches_initialized then
    let (s, gameIdx) := xemu_patches_find_game_by_certificate env s
    match gameIdx with
    | none =>
      { s with last_applied_title_id := tid, last_applied_region := reg,
               last_applied_version := ver }
    | some gi =>
      let game := s.db.games.getD gi zeroGame
      if (game.patches.filter (fun p => p.enabled)).length = 0 then
        { s with last_applied_title_id := tid, last_applied_region := reg,
                 last_applied_version := ver }
      else
        let (s, appliedCount) := mainLoopApplyPatches s game.patches
        if appliedCount = 0 then s
        else
          let wasManualReset := s.manual_reset_detected
          let s := { s with manual_reset_detected := false,
                            last_applied_title_id := tid,
                            last_applied_region := reg,
                            last_applied_version := ver }
          mainLoopNotify env s wasManualReset appliedCount game.game_title
  else s

/-- `xemu_patches_main_loop_update` (lines 4240-4511), one call from the
render loop.  The C reads the spam-prevention out variables without
initializing them; they matter only on unsuccessful reads, where the model
takes the value 0. -/
def xemu_patches_main_loop_update (env : TickEnv) (s0 : EngineState) : EngineState :=
  let s := { s0 with mlu_call_count := s0.mlu_call_count + 1 }
  let should_log := (10000 < env.now - s.mlu_last_log_time)
    ∨ s.mlu_call_count ≤ 1 ∨ s.mlu_call_count % 500 = 0
  if s.patch_system_enabled = false then s
  else
    let s := if should_log then { s with mlu_last_log_time := env.now } else s
    if s.mlu_frame_counter + 1 < 30 then
      { s with mlu_frame_counter := s.mlu_frame_counter + 1 }
    else
      let s := { s with mlu_frame_counter := 0 }
      let (s, cert_success, out, _) :=
        get_cached_xbe_info_with_spam_prevention env (0, 0, 0) s
      let (tid, reg, ver) := out
      let s :=
        if cert_success = false then s
        else if tid ≠ s.mlu_last_logged_title_id then
          { s with mlu_last_logged_title_id := tid }
        else s
      let s := detect_manual_reset env s
      if cert_success = false then s
      else mainLoopCertPhase env s tid reg ver

/-- `is_system_ready_for_patches` (lines 4737-4751). -/
def is_system_ready_for_patches (env : TickEnv) (s : EngineState) :
    EngineState × Bool :=
  let (s, gi) := xemu_patches_find_game_by_certificate env s
  match gi with
  | none => (s, false)
  | some _ => (s, is_game_currently_running env)

/-- `detect_vm_reset_completion` (lines 4755-4855). -/
def detect_vm_reset_completion (env : TickEnv) (s0 : EngineState) :
    EngineState × Bool :=
  let s := { s0 with dvrc_call_count := s0.dvrc_call_count + 1 }
  let should_log := (10000 < env.now - s.dvrc_last_log_time)
    ∨ s.dvrc_call_count ≤ 1 ∨ s.dvrc_call_count % 1000 = 0
  if should_log = false then (s, false)
  else
    let s := { s with dvrc_last_log_time := env.now }
    if s.vm_reset_triggered = false then (s, false)
    else if s.vm_reset_completed then
      (s, 2000 ≤ env.now - s.vm_reset_completion_time)
    else
      let (s, ready) := is_system_ready_for_patches env s
      if ready = false then (s, false)
      else if is_game_currently_running env = false then (s, false)
      else if s.load_disc_in_progress then (s, false)
      else
        match env.xbeCert with
        | none => (s, false)
        | some (tid, _, _) =>
          if tid = 0 ∨ tid = 0xFFFFFFFF then (s, false)
          else if vmReadOk s.mem 0x34D8E0 4 = false then (s, false)
          else
            ({ s with vm_reset_completed := true, vm_reset_completion_time := env.now,
                      vm_reset_triggered := false }, true)

/-- The pair loop of the post-reset apply pass (lines 5248-5270):
`write_direct_virtual_memory` per pair with no break; the patch counts as
applied when any pair write succeeded. -/
def postResetApplyPairs (s : EngineState) : List PatchAV → EngineState × Bool
  | [] => (s, false)
  | av :: rest =>
    let (s1, ok) := engWriteDirect s av.address av.value_data
    let (s2, anyRest) := postResetApplyPairs s1 rest
    (s2, ok || anyRest)

/-- The patch loop of the post-reset apply pass (lines 5240-5276). -/
def postResetApplyPatches (s : EngineState) : List MemoryPatch → EngineState × Nat
  | [] => (s, 0)
  | patch :: rest =>
    if patch.enabled then
      let (s1, ok) := postResetApplyPairs s patch.address_values
      let (s2, n) := postResetApplyPatches s1 rest
      (s2, (if ok then 1 else 0) + n)
    else postResetApplyPatches s rest

/-- The `hash * 31 + c` notification hash (lines 5304-5307), mod 2^32. -/
def notificationHash (text : CStr) : Nat :=
  text.foldl (fun h c => (h * 31 + c.toNat) % 2 ^ 32) 0

/-- The completion tail of `xemu_patches_process_post_reset_tick`
(lines 5333-5361). -/
def postResetFinishTail (s : EngineState) : EngineState :=
  let s := { s with reset_monitoring_active := false, post_reset_patch_scheduled := false,
                    reset_detected_in_progress := false, reset_detection_count := 0,
                    force_fresh_xbe_read := false, post_reset_system_active := false,
                    notification_generation_active := false }
  let s := set_load_disc_completed s
  { s with post_reset_start_time := 0, post_reset_call_count := 0,
           immediate_trigger_checked := false }

/-- The post-reset notification text (lines 5291-5293). -/
def postResetNotificationText (appliedCount : Nat) (title : CStr) : CStr :=
  strOf "Applied " ++ natToDec appliedCount
    ++ (if appliedCount = 1 then strOf " patch" else strOf " patches")
    ++ strOf " for " ++ title

/-- The attempt phase of `xemu_patches_process_post_reset_tick`
(lines 5131-5361): certificate check with possible completion exit, the
second retry increment, the game lookup (a NULL result is dereferenced at
line 5192 — modelled as `crashed`), the unconditional patch re-application
and the notification tail. -/
def postResetAttempt (env : TickEnv) (s' : EngineState) : EngineState :=
  let s := s'
  let (s, completedExit) :=
    match env.xbeCert with
    | none => (s, false)
    | some (tid, _, _) =>
      if tid = 0 ∨ tid = 0xFFFFFFFF then (s, false)
      else
        let s := { s with post_reset_current_title_id := tid }
        if s.load_disc_in_progress then (s, false)
        else
          let (s, compl) := detect_vm_reset_completion env s
          if compl then
            let s := { s with reset_monitoring_active := false,
                              post_reset_patch_scheduled := false,
                              post_reset_system_active := false,
                              post_reset_start_time := 0,
                              immediate_trigger_checked := false }
            let s := set_load_disc_completed s
            let s := { s with load_disc_in_progress := false,
                              vm_reset_completed := false,
                              vm_reset_completion_time := 0 }
            (s, true)
          else (s, false)
  if completedExit then s
  else
  let s := { s with post_reset_retry_count := s.post_reset_retry_count + 1 }
  let (s, gameIdx) := xemu_patches_find_game_by_certificate env s
  match gameIdx with
  | none => { s with crashed := true }
  | some gi =>
    let game := s.db.games.getD gi zeroGame
    -- the enabled-patch count and the address accessibility pre-check
    -- (lines 5190-5228) only read memory and gate nothing
    if s.load_disc_in_progress then { s with load_disc_in_progress := false }
    else
      let (s, appliedCount) := postResetApplyPatches s game.patches
      if 0 < appliedCount then
        let s := { s with manual_reset_detected := false }
        if s.load_disc_in_progress ∨ s.suppress_patch_notification then
          postResetFinishTail s
        else
          let text := postResetNotificationText appliedCount game.game_title
          if s.notification_generation_active then s
          else
            let hash := notificationHash text
            if s.ppru_last_notification_hash = hash
                ∧ env.now - s.ppru_last_notification_time < 3000 then s
            else
              let s := { s with ppru_last_notification_hash := hash,
                                ppru_last_notification_time := env.now,
                                log_notifications := s.log_notifications ++ [text],
                                notification_generation_active := false }
              postResetFinishTail s
      else postResetFinishTail s

/-- The retry phase (lines 5102-5129): first retry increment, the retry
ceiling, and the Load Disc bypass. -/
def postResetRetryPhase (env : TickEnv) (s' : EngineState) : EngineState :=
  let s := { s' with post_reset_retry_count := s'.post_reset_retry_count + 1 }
  if 3 < s.post_reset_retry_count then
    { s with reset_monitoring_active := false, post_reset_patch_scheduled := false,
             reset_detected_in_progress := false, reset_detection_count := 0,
             force_fresh_xbe_read := false, post_reset_system_active := false }
  else if s.load_disc_in_progress then
    { s with post_reset_retry_count := s.post_reset_retry_count + 1,
             post_reset_system_active := false }
  else postResetAttempt env s

/-- The scheduled phase (lines 5053-5100): start-time initialisation, call
counting, and the 3000 ms timeout / 1000-call cap that force-completes the
cycle, clearing the scheduled and coordination flags. -/
def postResetScheduled (env : TickEnv) (s' : EngineState) : EngineState :=
  -- `current_reset_active` is the constant false (line 5051)
  let s :=
    if s'.post_reset_start_time = 0 then
      { s' with post_reset_start_time := env.now, post_reset_call_count := 0,
                immediate_trigger_checked := false }
    else s'
  let s := { s with post_reset_call_count := s.post_reset_call_count + 1 }
  if 3000 < env.now - s.post_reset_start_time ∨ 1000 < s.post_reset_call_count then
    let (s, _) := detect_vm_reset_completion env s
    { s with reset_monitoring_active := false, post_reset_patch_scheduled := false,
             post_reset_system_active := false, post_reset_start_time := 0,
             immediate_trigger_checked := false }
  else postResetRetryPhase env s

/-- `xemu_patches_process_post_reset_tick` (lines 5005-5362), assembled
from the phases above. -/
def xemu_patches_process_post_reset_tick (env : TickEnv) (s0 : EngineState) :
    EngineState :=
  if s0.crashed then s0
  else
  let s := { s0 with ppru_call_count := s0.ppru_call_count + 1 }
  let (s, immediateExit) :=
    if s.immediate_trigger_checked = false then
      let s := { s with immediate_trigger_checked := true }
      let (s, compl) := detect_vm_reset_completion env s
      if compl ∧ s.cert_data_valid ∧ s.post_reset_current_title_id ≠ 0 then
        ({ s with patches_applied_for_current_cert := true }, true)
      else (s, false)
    else (s, false)
  if immediateExit then s
  else
  let s := check_startup_retry_detection env s
  if s.post_reset_patch_scheduled = false then s
  else postResetScheduled env s

/-- The engine's global state as the C initializers set it (xemu-patches.c
lines 100-661, 4008-4559, and the function-local statics, all
zero-initialized except `g_startup_retry_enabled = true` at line 649 and
`g_last_auto_applied_patch_count = -1` at line 4037), over a given database
and guest memory.  Used as the base of the concrete scenarios. -/
def initEngineState (db : PatchesDatabase) (m : GuestMem) : EngineState where
  db := db
  mem := m
  saved := []
  crashed := false
  log_writes := []
  log_notifications := []
  patches_loaded := false
  patches_initialized := false
  last_cert_title_id := 0
  last_cert_region := 0
  last_cert_version := 0
  cert_data_valid := false
  xbe_cache_valid := false
  xbe_cache_last_read_time := 0
  xbe_cache_title_id := 0
  xbe_cache_region := 0
  xbe_cache_version := 0
  force_fresh_xbe_read := false
  load_disc_stuck_counter := 0
  cached_last_invalid_time := 0
  load_disc_cooldown_frames := 0
  load_disc_in_progress := false
  load_disc_retry_pending := false
  last_invalid_title_id := 0
  last_invalid_read_time := 0
  invalid_read_count := 0
  file_last_notified_title_id := 0
  file_last_notification_time := 0
  notification_generation_active := false
  disc_present := false
  patch_system_enabled := false
  patches_applied_for_current_cert := false
  last_patch_application_title_id := 0
  auto_boot_processing_active := false
  sldc_last_processed_title_id := 0
  last_applied_title_id := 0
  last_applied_region := 0
  last_applied_version := 0
  last_reset_detection_time := 0
  last_seen_for_reset_detection := 0
  manual_reset_detected := false
  reset_detected_in_progress := false
  reset_detection_count := 0
  last_reset_detection_time_prevent_loop := 0
  dmr_certificate_was_available_prev := false
  dmr_certificate_unavailable_start_time := 0
  dmr_prev_title_id_during_unavailable := 0
  dmr_last_certificate_check_time := 0
  last_seen_title_id := []
  last_seen_region := []
  last_seen_version := []
  certificate_tracking_enabled := false
  suppress_patch_notification := false
  mlu_call_count := 0
  mlu_last_log_time := 0
  mlu_frame_counter := 0
  mlu_last_logged_title_id := 0
  mlu_notification_counter := 0
  mlu_last_notified_title_id := 0
  mlu_last_notification_time := 0
  mlu_last_simple_apply_time := 0
  mlu_last_simple_apply_text := []
  post_reset_patch_scheduled := false
  post_reset_retry_count := 0
  post_reset_system_active := false
  post_reset_patch_application_active := false
  post_reset_current_title_id := 0
  post_reset_start_time := 0
  post_reset_call_count := 0
  immediate_trigger_checked := false
  vm_reset_triggered := false
  vm_reset_completed := false
  vm_reset_completion_time := 0
  reset_monitoring_active := false
  post_reset_crash_protection_active := false
  dvrc_last_log_time := 0
  dvrc_call_count := 0
  ppru_call_count := 0
  ppru_last_notification_hash := 0
  ppru_last_notification_time := 0
  startup_retry_count := 0
  last_startup_retry_time := 0
  startup_retry_enabled := true
  last_auto_applied_title_id := 0
  last_auto_applied_region := 0
  last_auto_applied_version := 0
  last_auto_applied_patch_count := -1

/-- Fully-readable, fully-writable guest memory holding byte `v`
everywhere. -/
def constMem (v : Nat) : GuestMem where
  data := fun _ => v
  readOk := fun _ => true
  writeOk := fun _ => true
  cpuPresent := true

/-- Scenario for the backoff analysis: `time(NULL)` is 20000 s, the loaded
XBE reports the no-disc certificate value 0xFFFE0000. -/
def c7cexEnv : TickEnv :=
  TickEnv.mk 0 20000 (some (0xFFFE0000, 0, 0)) true true

/-- Scenario state: six consecutive invalid reads of 0xFFFE0000 have already
happened, the last one at second 0 — 20000 s ago, twice the 10000-second
cooldown window. -/
def c7cexState : EngineState :=
  { initEngineState (PatchesDatabase.mk [] false) (constMem 0) with
      invalid_read_count := 6, last_invalid_title_id := 0xFFFE0000,
      last_invalid_read_time := 0 }

/-- A one-game database for the concrete mutator scenarios. -/
def c5game : GamePatches :=
  GamePatches.mk (strOf "Halo") (strOf "NTSC-U") (strOf "4D530001")
    (strOf "1.00") none none none [] true

/-- An enabled one-pair patch for the post-reset scenario. -/
def c8patch : MemoryPatch :=
  MemoryPatch.mk [PatchAV.mk 65536 [239]] true (strOf "P") [] [] [] [] false

/-- The game the post-reset scenario certificate matches. -/
def c8game : GamePatches :=
  GamePatches.mk (strOf "Halo") (strOf "NTSC-U") (strOf "4D530001")
    (strOf "1.0.0.0") none none none [c8patch] true

/-- Post-reset scenario collaborators: 500 ms after scheduling, a valid
certificate, system memory and the guest probe available. -/
def c8cexEnv : TickEnv :=
  TickEnv.mk 1500 0 (some (0x4D530001, 1, 0x01000000)) true true

/-- Post-reset scenario state: a pass is scheduled (start time 1000 ms),
no VM reset event was ever triggered, so the readiness poll cannot
succeed. -/
def c8cexState : EngineState :=
  { initEngineState (PatchesDatabase.mk [c8game] false) (constMem 0) with
      immediate_trigger_checked := true, startup_retry_enabled := false,
      post_reset_patch_scheduled := true, post_reset_start_time := 1000 }

/-- Ceiling-witness scenario: retry count already at the ceiling. -/
def c8wState : EngineState :=
  { initEngineState (PatchesDatabase.mk [] false) (constMem 0) with
      immediate_trigger_checked := true, startup_retry_enabled := false,
      post_reset_patch_scheduled := true, post_reset_start_time := 100,
      post_reset_retry_count := 3 }

/-- Collaborators for the ceiling witness. -/
def c8wEnv : TickEnv :=
  TickEnv.mk 100 0 none true true

/-- The address:value text a user can enter in the patch dialog:
space-separated bytes after the address, a format the pair parser
accepts. -/
def c4text : CStr := strOf "00123456: DE AD BE EF"

/-- A database built through the public mutators: one game, then one patch
added with `c4text` as its address:value text. -/
def c4db : PatchesDatabase :=
  (xemu_patches_add_patch
    (PatchesDatabase.mk
      [GamePatches.mk (strOf "Halo") (strOf "NTSC-U") (strOf "4D530001")
        (strOf "1.0") (some []) (some []) (some []) [] true] false)
    0 (strOf "Test") (strOf "Cheat") (strOf "Me") [] c4text false).2

/-- An enabled one-pair patch whose guest write will fail (read-only
memory) — the repeated-pass scenario. -/
def c1Patch : MemoryPatch :=
  MemoryPatch.mk [PatchAV.mk 0x10000 [0xEF]] true (strOf "P") (strOf "Cheat")
    (strOf "A") [] [] false

/-- One game matching the scenario certificate, holding `c1Patch`. -/
def c1Db : PatchesDatabase :=
  PatchesDatabase.mk
    [GamePatches.mk (strOf "Halo") (strOf "NTSC-U") (strOf "4D530001")
      (strOf "1.0.0.0") none none none [c1Patch] true] false

/-- Readable but non-writable guest memory: every patch write fails. -/
def c1Mem : GuestMem :=
  GuestMem.mk (fun _ => 0) (fun _ => true) (fun _ => false) true

/-- Main-loop scenario state: system enabled, database loaded. -/
def c1State : EngineState :=
  { initEngineState c1Db c1Mem with
      patches_loaded := true, patches_initialized := true,
      disc_present := true, patch_system_enabled := true,
      startup_retry_enabled := false, last_auto_applied_patch_count := 0 }

/-- Scenario collaborators: a fixed valid certificate, never changing. -/
def c1Env : TickEnv :=
  TickEnv.mk 1000 100 (some (0x4D530001, 1, 0x01000000)) true true

/-- `n` render-loop ticks of the scenario. -/
def c1Run (n : Nat) : EngineState :=
  (xemu_patches_main_loop_update c1Env)^[n] c1State

/-- A quiescent state whose last-applied triple is (5, 1, 2). -/
def c1wState : EngineState :=
  { initEngineState (PatchesDatabase.mk [] false) (constMem 0) with
      last_applied_title_id := 5, last_applied_region := 1,
      last_applied_version := 2 }

/-!
# Theorems

General-purpose lemmas about the helper functions first, then one theorem
per claim (with its witness or counterexample).
-/

theorem firstIdxWhere_eq_none_iff {α : Type _} {p : α → Prop} [DecidablePred p]
    {l : List α} : firstIdxWhere p l = none ↔ ∀ x ∈ l, ¬ p x := by
  induction l with
  | nil => simp [firstIdxWhere]
  | cons x rest ih =>
    by_cases hx : p x <;> simp [firstIdxWhere, hx, ih]

theorem firstIdxWhere_some {α : Type _} {p : α → Prop} [DecidablePred p]
    {l : List α} {i : Nat} (h : firstIdxWhere p l = some i) :
    ∃ x, l[i]? = some x ∧ p x := by
  induction l generalizing i with
  | nil => simp [firstIdxWhere] at h
  | cons x rest ih =>
    by_cases hx : p x
    · simp [firstIdxWhere, hx] at h
      exact h ▸ ⟨x, by simp, hx⟩
    · simp [firstIdxWhere, hx] at h
      obtain ⟨j, hj, rfl⟩ := h
      obtain ⟨y, hy, hpy⟩ := ih hj
      exact ⟨y, by simpa using hy, hpy⟩

theorem firstIdxWhere_lt_length {α : Type _} {p : α → Prop} [DecidablePred p]
    {l : List α} {i : Nat} (h : firstIdxWhere p l = some i) : i < l.length := by
  obtain ⟨x, hx, -⟩ := firstIdxWhere_some h
  exact (List.getElem?_eq_some_iff.mp hx).1

theorem saved_values_remove_at_perm (store : SavedStore) (i : Nat)
    (h : i < store.length) :
    (saved_values_remove_at store i).Perm (store.eraseIdx i) := by
  induction store generalizing i with
  | nil => simp at h
  | cons e rest ih =>
    rw [saved_values_remove_at, dif_neg (List.cons_ne_nil e rest)]
    cases i with
    | zero =>
      rw [List.eraseIdx_cons_zero]
      cases rest with
      | nil => simp
      | cons f r2 =>
        rw [List.set_cons_zero, List.getLast_cons (List.cons_ne_nil f r2),
          List.dropLast_cons_of_ne_nil (List.cons_ne_nil f r2)]
        have h1 : List.Perm ((f :: r2).getLast (List.cons_ne_nil f r2) :: (f :: r2).dropLast)
            ((f :: r2).dropLast ++ [(f :: r2).getLast (List.cons_ne_nil f r2)]) :=
          (List.perm_append_singleton _ _).symm
        rwa [List.dropLast_append_getLast (List.cons_ne_nil f r2)] at h1
    | succ j =>
      have hj : j < rest.length := by simpa using Nat.lt_of_succ_lt_succ h
      have hrne : rest ≠ [] :=
        List.ne_nil_of_length_pos (Nat.lt_of_le_of_lt (Nat.zero_le j) hj)
      rw [List.eraseIdx_cons_succ, List.set_cons_succ, List.getLast_cons hrne]
      have hsetne : rest.set j (rest.getLast hrne) ≠ [] := by
        intro h0
        have h1 := congrArg List.length h0
        rw [List.length_set] at h1
        simp at h1
        rw [h1] at hj
        simp at hj
      rw [List.dropLast_cons_of_ne_nil hsetne]
      have h2 := ih j hj
      rw [saved_values_remove_at, dif_neg hrne] at h2
      exact h2.cons e

theorem saved_values_remove_at_length (store : SavedStore) (i : Nat)
    (h : i < store.length) :
    (saved_values_remove_at store i).length = store.length - 1 := by
  rw [(saved_values_remove_at_perm store i h).length_eq, List.length_eraseIdx_of_lt h]

theorem saved_values_remove_at_getElem_lt (store : SavedStore) (i j : Nat)
    (hi : i < store.length) (hj : j < i) :
    (saved_values_remove_at store i)[j]? = store[j]? := by
  have hne : store ≠ [] :=
    List.ne_nil_of_length_pos (Nat.lt_of_le_of_lt (Nat.zero_le i) hi)
  rw [saved_values_remove_at, dif_neg hne, List.dropLast_eq_take,
    List.length_set]
  rw [List.getElem?_take_of_lt (by omega), List.getElem?_set_ne (by omega)]

theorem saved_values_remove_matching_spec (cond : SavedValueEntry → Bool) :
    ∀ (k : Nat) (store : SavedStore) (i : Nat), store.length - i ≤ k →
      (∀ j (hj2 : j < store.length), j < i → cond (store.get ⟨j, hj2⟩) = false) →
      (saved_values_remove_matching cond store i).length ≤ store.length ∧
      ((store.map savedKey).Nodup →
        ((saved_values_remove_matching cond store i).map savedKey).Nodup) ∧
      (∀ e ∈ saved_values_remove_matching cond store i, cond e = false) := by
  intro k
  induction k with
  | zero =>
    intro store i hk hpre
    have hle : store.length ≤ i := by omega
    rw [saved_values_remove_matching, dif_neg (by omega)]
    refine ⟨Nat.le_refl _, fun h => h, fun e he => ?_⟩
    obtain ⟨j, hj, hje⟩ := List.mem_iff_getElem.mp he
    have := hpre j hj (Nat.lt_of_lt_of_le hj hle)
    rwa [List.get_eq_getElem, hje] at this
  | succ k ih =>
    intro store i hk hpre
    by_cases hlt : i < store.length
    · rw [saved_values_remove_matching, dif_pos hlt]
      by_cases hc : cond (store.get ⟨i, hlt⟩) = true
      · rw [if_pos hc]
        have hlen : (saved_values_remove_at store i).length = store.length - 1 :=
          saved_values_remove_at_length store i hlt
        have hperm := saved_values_remove_at_perm store i hlt
        have hih := ih (saved_values_remove_at store i) i (by omega) ?_
        · refine ⟨by omega, fun hnd => hih.2.1 ?_, hih.2.2⟩
          have hsub : ((store.eraseIdx i).map savedKey).Sublist (store.map savedKey) :=
            (List.eraseIdx_sublist store i).map savedKey
          exact ((hperm.map savedKey).nodup_iff).mpr (hnd.sublist hsub)
        · intro j hj2 hji
          have hj2s : j < store.length := by omega
          have hsame := saved_values_remove_at_getElem_lt store i j hlt hji
          have h1 : (saved_values_remove_at store i).get ⟨j, hj2⟩
              = store.get ⟨j, hj2s⟩ := by
            have e1 : (saved_values_remove_at store i)[j]?
                = some ((saved_values_remove_at store i).get ⟨j, hj2⟩) := by
              simp [List.getElem?_eq_getElem hj2]
            have e2 : store[j]? = some (store.get ⟨j, hj2s⟩) := by
              simp [List.getElem?_eq_getElem hj2s]
            rw [e1, e2] at hsame
            exact Option.some.inj hsame
          rw [h1]
          exact hpre j hj2s hji
      · rw [if_neg hc]
        have hc2 : cond (store.get ⟨i, hlt⟩) = false := by
          cases h0 : cond (store.get ⟨i, hlt⟩) with
          | true => exact absurd h0 hc
          | false => rfl
        exact ih store (i + 1) (by omega) (fun j hj2 hji => by
          rcases Nat.lt_or_ge j i with h1 | h1
          · exact hpre j hj2 h1
          · have : j = i := by omega
            subst this
            exact hc2)
    · rw [saved_values_remove_matching, dif_neg hlt]
      refine ⟨Nat.le_refl _, fun h => h, fun e he => ?_⟩
      obtain ⟨j, hj, hje⟩ := List.mem_iff_getElem.mp he
      have := hpre j hj (by omega)
      rwa [List.get_eq_getElem, hje] at this

theorem list_set_of_getElem_eq {α : Type _} : ∀ (l : List α) (i : Nat) (v : α),
    l[i]? = some v → l.set i v = l
  | [], i, v, h => by simp at h
  | x :: rest, 0, v, h => by
    simp at h
    simp [h]
  | x :: rest, i + 1, v, h => by
    simp at h
    simp [List.set_cons_succ, list_set_of_getElem_eq rest i v h]

/-- C10: Guest-memory address guard.  A call to `xemu_virtual_memory_read`
or `xemu_virtual_memory_write` with a virtual address above
`XBOX_VIRTUAL_HIGH_MEMORY_END` (0xFFFFFFFF), or with no CPU available,
performs no guest memory access and returns 0 with an error message; the
functions return 1 exactly when the CPU-debug access of the requested size
succeeds; and every access they do perform targets the requested address
and size inside the 32-bit Xbox virtual address range. -/
theorem C10_guest_memory_address_guard (env : CpuEnv) (addr size : Nat) :
    (XBOX_VIRTUAL_HIGH_MEMORY_END < addr ∨ env.cpuPresent = false →
      (xemu_virtual_memory_read env addr size).ret = 0 ∧
      (xemu_virtual_memory_read env addr size).accesses = [] ∧
      (xemu_virtual_memory_read env addr size).errorMsg ≠ none ∧
      (xemu_virtual_memory_write env addr size).ret = 0 ∧
      (xemu_virtual_memory_write env addr size).accesses = [] ∧
      (xemu_virtual_memory_write env addr size).errorMsg ≠ none) ∧
    ((xemu_virtual_memory_read env addr size).ret = 1 ↔
      addr ≤ XBOX_VIRTUAL_HIGH_MEMORY_END ∧ env.cpuPresent = true ∧
        env.rwDebugOk addr size false = true) ∧
    ((xemu_virtual_memory_write env addr size).ret = 1 ↔
      addr ≤ XBOX_VIRTUAL_HIGH_MEMORY_END ∧ env.cpuPresent = true ∧
        env.rwDebugOk addr size true = true) ∧
    (∀ a l w, ((a, l, w) ∈ (xemu_virtual_memory_read env addr size).accesses ∨
        (a, l, w) ∈ (xemu_virtual_memory_write env addr size).accesses) →
      a = addr ∧ l = size ∧ a ≤ XBOX_VIRTUAL_HIGH_MEMORY_END) := by
  by_cases hv : addr ≤ XBOX_VIRTUAL_HIGH_MEMORY_END
  · have hvb : xemu_virtual_memory_is_valid_address addr = true := by
      simp [xemu_virtual_memory_is_valid_address, hv]
    cases hcp : env.cpuPresent with
    | false =>
      refine ⟨fun _ => ?_, ?_, ?_, ?_⟩ <;>
        simp [xemu_virtual_memory_read, xemu_virtual_memory_write, hvb, hcp]
    | true =>
      refine ⟨fun hh => ?_, ?_, ?_, ?_⟩
      · rcases hh with hh | hh
        · exact absurd hv (by omega)
        · simp at hh
      · by_cases hr : env.rwDebugOk addr size false = true <;>
          simp [xemu_virtual_memory_read, hvb, hcp, hr, hv]
      · by_cases hw : env.rwDebugOk addr size true = true <;>
          simp [xemu_virtual_memory_write, hvb, hcp, hw, hv]
      · intro a l w hmem
        rcases hmem with hmem | hmem
        · by_cases hr : env.rwDebugOk addr size false = true <;>
            · simp [xemu_virtual_memory_read, hvb, hcp, hr] at hmem
              simp [hmem, hv]
        · by_cases hw : env.rwDebugOk addr size true = true <;>
            · simp [xemu_virtual_memory_write, hvb, hcp, hw] at hmem
              simp [hmem, hv]
  · have hvb : xemu_virtual_memory_is_valid_address addr = false := by
      simp [xemu_virtual_memory_is_valid_address, hv]
    refine ⟨fun _ => ?_, ?_, ?_, ?_⟩ <;>
      simp [xemu_virtual_memory_read, xemu_virtual_memory_write, hvb, hv]

/-- Witness for C10 at a concrete out-of-range address. -/
theorem C10_guest_memory_address_guard_witness :
    (xemu_virtual_memory_read { cpuPresent := true, rwDebugOk := fun _ _ _ => true }
      (2 ^ 33) 4).ret = 0 :=
  ((C10_guest_memory_address_guard
      { cpuPresent := true, rwDebugOk := fun _ _ _ => true } (2 ^ 33) 4).1
    (Or.inl (by decide))).1

/-- C9: SavedValue store invariant.  Under the store invariant (at most
1024 entries, one per (game, patch, address) triple), `add_saved_value`
preserves the invariant, updates an existing entry in place (same length,
new bytes at the found index), appends exactly one entry when the triple is
new, and when the store is full returns NULL leaving the store unchanged;
the swap-remove operations and the removal loops also preserve the
invariant. -/
theorem C9_saved_value_store_invariant (store : SavedStore) (g p : Int) (a : Nat)
    (data : List Nat) (h : SavedStoreWF store) :
    SavedStoreWF (add_saved_value store g p a data).2 ∧
    (MAX_SAVED_VALUES ≤ store.length →
      add_saved_value store g p a data = (none, store)) ∧
    (∀ i, find_saved_value store g p a = some i → store.length < MAX_SAVED_VALUES →
      (add_saved_value store g p a data).2.length = store.length ∧
      (add_saved_value store g p a data).2[i]? =
        some (mkSavedValueEntry g p a data)) ∧
    (find_saved_value store g p a = none → store.length < MAX_SAVED_VALUES →
      (add_saved_value store g p a data).2 =
        store ++ [mkSavedValueEntry g p a data]) ∧
    (∀ cond : SavedValueEntry → Bool,
      SavedStoreWF (saved_values_remove_matching cond store 0)) ∧
    (∀ i, i < store.length → SavedStoreWF (saved_values_remove_at store i)) ∧
    SavedStoreWF (xemu_patches_clear_all_saved_values store) := by
  obtain ⟨hlen, hnd⟩ := h
  refine ⟨?_, ?_, ?_, ?_, ?_, ?_, ?_⟩
  · unfold add_saved_value
    by_cases hfull : MAX_SAVED_VALUES ≤ store.length
    · rw [if_pos hfull]
      exact ⟨hlen, hnd⟩
    · rw [if_neg hfull]
      cases hf : find_saved_value store g p a with
      | some i =>
        obtain ⟨x, hx, hpx⟩ := firstIdxWhere_some hf
        have hkey : savedKey x = (g, p, a) := by
          obtain ⟨h1, h2, h3⟩ := hpx
          simp [savedKey, h1, h2, h3]
        have hi : i < store.length := firstIdxWhere_lt_length hf
        constructor
        · simpa using hlen
        · rw [List.map_set]
          have hmk : savedKey (SavedValueEntry.mk g p a data) = savedKey x := by
            rw [hkey]
            rfl
          rw [hmk, list_set_of_getElem_eq]
          · exact hnd
          · rw [List.getElem?_map, hx]
            rfl
      | none =>
        have hnotin : (g, p, a) ∉ store.map savedKey := by
          intro hmem
          obtain ⟨x, hxmem, hxkey⟩ := List.mem_map.mp hmem
          have := (firstIdxWhere_eq_none_iff.mp hf) x hxmem
          apply this
          refine ⟨?_, ?_, ?_⟩ <;>
            simp [savedKey, Prod.ext_iff] at hxkey <;> tauto
        constructor
        · simp
          omega
        · rw [List.map_append]
          apply List.Nodup.append hnd
          · simp
          · intro k hk hk2
            simp only [List.map_cons, List.map_nil, List.mem_singleton] at hk2
            apply hnotin
            have hkk : k = (g, p, a) := by rw [hk2]; rfl
            rwa [hkk] at hk
  · intro hfull
    unfold add_saved_value
    rw [if_pos hfull]
  · intro i hf hroom
    have hi : i < store.length := firstIdxWhere_lt_length hf
    unfold add_saved_value
    rw [if_neg (by omega), hf]
    refine ⟨by simp, ?_⟩
    simp [List.getElem?_set_self, hi, mkSavedValueEntry]
  · intro hf hroom
    unfold add_saved_value
    rw [if_neg (by omega), hf]
    rfl
  · intro cond
    have := saved_values_remove_matching_spec cond store.length store 0 (by omega)
      (fun j hj2 hji => by omega)
    exact ⟨Nat.le_trans this.1 hlen, this.2.1 hnd⟩
  · intro i hi
    constructor
    · rw [saved_values_remove_at_length store i hi]
      omega
    · have hperm := (saved_values_remove_at_perm store i hi).map savedKey
      have hsub : ((store.eraseIdx i).map savedKey).Sublist (store.map savedKey) :=
        (List.eraseIdx_sublist store i).map savedKey
      exact hperm.nodup_iff.mpr (hnd.sublist hsub)
  · exact ⟨by simp [xemu_patches_clear_all_saved_values, MAX_SAVED_VALUES],
      by simp [xemu_patches_clear_all_saved_values]⟩

/-- Witness for C9 on a concrete one-entry store: the invariant holds and
the add updates the existing entry in place. -/
theorem C9_saved_value_store_invariant_witness :
    SavedStoreWF [mkSavedValueEntry 0 0 16 [1]] ∧
    (add_saved_value [mkSavedValueEntry 0 0 16 [1]] 0 0 16 [2]).2.length = 1 ∧
    (add_saved_value [mkSavedValueEntry 0 0 16 [1]] 0 0 16 [2]).2[0]? =
      some (mkSavedValueEntry 0 0 16 [2]) := by
  have hwf : SavedStoreWF [mkSavedValueEntry 0 0 16 [1]] := by
    constructor
    · simp [MAX_SAVED_VALUES]
    · simp
  have h := C9_saved_value_store_invariant [mkSavedValueEntry 0 0 16 [1]] 0 0 16 [2] hwf
  have hfind : find_saved_value [mkSavedValueEntry 0 0 16 [1]] 0 0 16 = some 0 := by
    decide
  have h3 := h.2.2.1 0 hfind (by decide)
  exact ⟨hwf, by simpa using h3.1, h3.2⟩

/-- C7 (amended): consecutive-invalid-read backoff.  When the inner
certificate read fails and the caller's buffer holds a nonzero title id:
a *different* invalid value resets the consecutive-invalid counter to 1
and is not blocked; once the counter has reached 5, a further read of the
*same* value inside the 10000-second window is blocked (returns failure,
without refreshing the window's timestamp); for the no-disc value
0xFFFE0000 the read stays blocked even after the window has elapsed
(the cooldown never ends for that value); for any *other* repeated
invalid value, a read after the window has elapsed is NOT blocked. -/
theorem C7_invalid_read_backoff (env : TickEnv) (s s1 : EngineState)
    (tid reg ver : Nat)
    (hinner : get_cached_xbe_info env s = (s1, none)) (htid : tid ≠ 0) :
    (tid ≠ s1.last_invalid_title_id →
      (get_cached_xbe_info_with_spam_prevention env (tid, reg, ver) s).1.invalid_read_count
        = 1 ∧
      (get_cached_xbe_info_with_spam_prevention env (tid, reg, ver) s).1.last_invalid_title_id
        = tid ∧
      (get_cached_xbe_info_with_spam_prevention env (tid, reg, ver) s).2.2.2 = false) ∧
    (tid = s1.last_invalid_title_id → 5 ≤ s1.invalid_read_count →
      env.nowSec - s1.last_invalid_read_time < 10000 →
      (get_cached_xbe_info_with_spam_prevention env (tid, reg, ver) s).2.1 = false ∧
      (get_cached_xbe_info_with_spam_prevention env (tid, reg, ver) s).2.2.2 = true ∧
      (get_cached_xbe_info_with_spam_prevention env (tid, reg, ver) s).1.last_invalid_read_time
        = s1.last_invalid_read_time) ∧
    (tid = 0xFFFE0000 → tid = s1.last_invalid_title_id → 5 ≤ s1.invalid_read_count →
      (get_cached_xbe_info_with_spam_prevention env (tid, reg, ver) s).2.1 = false ∧
      (get_cached_xbe_info_with_spam_prevention env (tid, reg, ver) s).2.2.2 = true) ∧
    (tid = s1.last_invalid_title_id → tid ≠ 0xFFFE0000 →
      10000 ≤ env.nowSec - s1.last_invalid_read_time →
      (get_cached_xbe_info_with_spam_prevention env (tid, reg, ver) s).2.2.2 = false) := by
  refine ⟨?_, ?_, ?_, ?_⟩
  · intro hne
    unfold get_cached_xbe_info_with_spam_prevention
    rw [hinner]
    simp only [Option.getD_none, Option.isSome_none]
    rw [if_neg (by simp), if_pos htid]
    refine ⟨?_, ?_, ?_⟩
    all_goals split_ifs with h1 h2 h3 h4 h5 h6 h7 h8
    all_goals simp only [Nat.succ_eq_add_one] at *
    all_goals first
      | rfl
      | omega
  · intro heq hcnt hwin
    unfold get_cached_xbe_info_with_spam_prevention
    rw [hinner]
    simp only [Option.getD_none, Option.isSome_none]
    rw [if_neg (by simp), if_pos htid]
    refine ⟨?_, ?_, ?_⟩
    all_goals split_ifs with h1 h2 h3 h4 h5 h6 h7 h8
    all_goals simp only [Nat.succ_eq_add_one] at *
    all_goals first
      | rfl
      | omega
  · intro hfe heq hcnt
    unfold get_cached_xbe_info_with_spam_prevention
    rw [hinner]
    simp only [Option.getD_none, Option.isSome_none]
    rw [if_neg (by simp), if_pos htid]
    refine ⟨?_, ?_⟩
    all_goals split_ifs with h1 h2 h3 h4 h5 h6 h7 h8
    all_goals simp only [Nat.succ_eq_add_one] at *
    all_goals first
      | rfl
      | omega
  · intro heq hne16 hwin
    unfold get_cached_xbe_info_with_spam_prevention
    rw [hinner]
    simp only [Option.getD_none, Option.isSome_none]
    rw [if_neg (by simp), if_pos htid]
    split_ifs with h1 h2 h3 h4 h5 h6 h7 h8
    all_goals simp only [Nat.succ_eq_add_one] at *
    all_goals first
      | rfl
      | omega

/-- Counterexample to C7 as stated: after six consecutive invalid reads of
0xFFFE0000, the seventh read is still blocked 20000 seconds later — twice
the 10000-second cooldown — so the suppression does NOT end when the
cooldown window elapses. -/
theorem C7_invalid_read_backoff_counterexample :
    10000 ≤ (20000 : Int) - c7cexState.last_invalid_read_time ∧
    (get_cached_xbe_info_with_spam_prevention c7cexEnv (0xFFFE0000, 0, 0)
      c7cexState).2.2.2 = true ∧
    (get_cached_xbe_info_with_spam_prevention c7cexEnv (0xFFFE0000, 0, 0)
      c7cexState).2.1 = false :=
  ⟨by decide, rfl, rfl⟩

/-- Witness for C7: the 0xFFFE0000 clause applied at the concrete scenario
yields a blocked read. -/
theorem C7_invalid_read_backoff_witness :
    (get_cached_xbe_info_with_spam_prevention c7cexEnv (0xFFFE0000, 0, 0)
      c7cexState).2.2.2 = true :=
  ((C7_invalid_read_backoff c7cexEnv c7cexState
      (get_cached_xbe_info c7cexEnv c7cexState).1 0xFFFE0000 0 0 rfl
      (by decide)).2.2.1 rfl rfl (by decide)).2

/-- C5 (amended): mutator postconditions.  Successful `update_game`,
`remove_game`, `add_patch`, `update_patch` and `remove_patch` calls mark
the database dirty; `remove_patch` releases every SavedValue entry scoped
to the removed (game, patch) — but `remove_game` returns the saved-value
store UNCHANGED, releasing nothing; `add_game` saves immediately, so the
flag it sets survives exactly when that save fails; and
`set_patch_enabled`, when it enables a patch while no game is running,
returns on the early path without marking the database dirty at all. -/
theorem C5_mutator_postconditions (env : StoreEnv) (db : PatchesDatabase)
    (gi pi : Nat) (t r tid v alt td dn nm cat auth nts avt : CStr)
    (srv : Bool) (m : GuestMem) (store : SavedStore) :
    ((xemu_patches_update_game db gi t r tid v alt td dn).1 = true →
      (xemu_patches_update_game db gi t r tid v alt td dn).2.dirty = true) ∧
    ((xemu_patches_remove_game db gi store).1 = true →
      (xemu_patches_remove_game db gi store).2.1.dirty = true ∧
      (xemu_patches_remove_game db gi store).2.2 = store) ∧
    ((xemu_patches_add_patch db gi nm cat auth nts avt srv).1 = true →
      (xemu_patches_add_patch db gi nm cat auth nts avt srv).2.dirty = true) ∧
    ((xemu_patches_update_patch db gi pi nm cat auth nts avt srv).1 = true →
      (xemu_patches_update_patch db gi pi nm cat auth nts avt srv).2.dirty = true) ∧
    ((xemu_patches_remove_patch db gi pi store).1 = true →
      (xemu_patches_remove_patch db gi pi store).2.1.dirty = true ∧
      ∀ e ∈ (xemu_patches_remove_patch db gi pi store).2.2,
        ¬(e.game_index = (gi : Int) ∧ e.patch_index = (pi : Int))) ∧
    ((xemu_patches_add_game env db t r tid v alt td dn).1 = true ∧
      ((xemu_patches_add_game env db t r tid v alt td dn).2.dirty = false ↔
        env.patchesLoaded = true ∧ env.saveInProgress = false ∧
          env.fileOpenOk = true)) ∧
    (∀ game patch, db.games.get? gi = some game →
      game.patches.get? pi = some patch → patch.enabled = false →
      env.gameRunning = false →
      (xemu_patches_set_patch_enabled env db gi pi true m store).1 = true ∧
      (xemu_patches_set_patch_enabled env db gi pi true m store).2.1.dirty
        = db.dirty ∧
      (xemu_patches_set_patch_enabled env db gi pi true m store).2.2.2.1
        = store) := by
  refine ⟨?_, ?_, ?_, ?_, ?_, ?_, ?_⟩
  · cases hg : db.games[gi]? <;>
      simp [xemu_patches_update_game, hg]
  · by_cases hlt : gi < db.games.length <;>
      simp [xemu_patches_remove_game, hlt]
  · cases hg : db.games[gi]? <;>
      simp [xemu_patches_add_patch, hg]
  · cases hg : db.games[gi]? with
    | none => simp [xemu_patches_update_patch, hg]
    | some game =>
      cases hp : game.patches[pi]? <;>
        simp [xemu_patches_update_patch, hg, hp]
  · cases hg : db.games[gi]? with
    | none => simp [xemu_patches_remove_patch, hg]
    | some game =>
      by_cases hlt : pi < game.patches.length
      · intro _
        have hspec := saved_values_remove_matching_spec
          (fun e => decide (e.game_index = (gi : Int))
            && decide (e.patch_index = (pi : Int)))
          store.length store 0 (by omega) (by omega)
        refine ⟨by simp [xemu_patches_remove_patch, hg, hlt], ?_⟩
        intro e he
        have he2 : e ∈ saved_values_remove_matching
            (fun e => decide (e.game_index = (gi : Int))
              && decide (e.patch_index = (pi : Int)))
            store 0 := by
          simpa [xemu_patches_remove_patch, hg, hlt] using he
        have hcf := hspec.2.2 e he2
        simp only [Bool.and_eq_false_iff, decide_eq_false_iff_not] at hcf
        intro hc
        rcases hcf with hcf | hcf <;> exact hcf (by simp [hc.1, hc.2])
      · simp [xemu_patches_remove_patch, hg, hlt]
  · constructor
    · simp [xemu_patches_add_game]
    · have hne : (xemu_patches_add_game_core db t r tid v alt td dn).games.isEmpty
          = false := by
        simp [xemu_patches_add_game_core]
      cases hpl : env.patchesLoaded <;> cases hsp : env.saveInProgress <;>
        cases hfo : env.fileOpenOk <;>
        simp [xemu_patches_add_game, xemu_patches_save_database, hpl, hsp, hfo,
          hne, xemu_patches_add_game_core]
  · intro game patch hg hp hpe hgr
    rw [List.get?_eq_getElem?] at hg hp
    refine ⟨?_, ?_, ?_⟩ <;>
      simp [xemu_patches_set_patch_enabled, hg, hp, hpe, hgr]

/-- Counterexample to C5 as stated: removing game 0 succeeds, yet the
SavedValue entry scoped to game 0 is still in the store afterwards —
`xemu_patches_remove_game` releases nothing. -/
theorem C5_mutator_postconditions_counterexample :
    (xemu_patches_remove_game (PatchesDatabase.mk [c5game] false) 0
      [mkSavedValueEntry 0 0 16 [1]]).1 = true ∧
    (xemu_patches_remove_game (PatchesDatabase.mk [c5game] false) 0
      [mkSavedValueEntry 0 0 16 [1]]).2.2 = [mkSavedValueEntry 0 0 16 [1]] ∧
    (mkSavedValueEntry 0 0 16 [1]).game_index = ((0 : Nat) : Int) :=
  ⟨rfl, rfl, rfl⟩

/-- Witness for C5: the remove-game clause at the concrete one-game
database marks the database dirty and leaves the store untouched. -/
theorem C5_mutator_postconditions_witness :
    (xemu_patches_remove_game (PatchesDatabase.mk [c5game] false) 0
      [mkSavedValueEntry 0 0 16 [1]]).2.1.dirty = true ∧
    (xemu_patches_remove_game (PatchesDatabase.mk [c5game] false) 0
      [mkSavedValueEntry 0 0 16 [1]]).2.2 = [mkSavedValueEntry 0 0 16 [1]] :=
  (C5_mutator_postconditions (StoreEnv.mk true true true false true)
    (PatchesDatabase.mk [c5game] false) 0 0 [] [] [] [] [] [] []
    [] [] [] [] [] false (constMem 0)
    [mkSavedValueEntry 0 0 16 [1]]).2.1 rfl

/-- C6: duplicate rejection.  `xemu_patches_find_duplicate_game` returns
-1 exactly when no game matches on both title_id and version (string
equality), and a nonnegative index only for a game matching on both; the
Add Game flow rejects a duplicate pair leaving the database unchanged, and
accepts when no game matches both (in particular the same title_id under a
different version), appending exactly the new game. -/
theorem C6_duplicate_rejection (env : StoreEnv) (db : PatchesDatabase)
    (title region title_id version alt td dn : CStr)
    (hl : env.patchesLoaded = true)
    (ht : title.length ≠ 0) (hid : title_id.length ≠ 0) :
    (xemu_patches_find_duplicate_game true db title_id version = -1 ↔
      ∀ g ∈ db.games, ¬(g.title_id = title_id ∧ g.version = version)) ∧
    (∀ i : Nat,
      xemu_patches_find_duplicate_game true db title_id version = (i : Int) →
      ∃ g, db.games[i]? = some g ∧ g.title_id = title_id ∧ g.version = version) ∧
    ((∃ g ∈ db.games, g.title_id = title_id ∧ g.version = version) →
      (drawAddGameDialog_add env db title region title_id version alt td dn).2
        = db ∧
      ∃ i : Nat,
        (drawAddGameDialog_add env db title region title_id version alt td dn).1
          = AddGameOutcome.duplicate (i : Int)) ∧
    ((∀ g ∈ db.games, ¬(g.title_id = title_id ∧ g.version = version)) →
      (drawAddGameDialog_add env db title region title_id version alt td dn).1
        = AddGameOutcome.added ∧
      (drawAddGameDialog_add env db title region title_id version alt td dn).2.games
        = db.games ++ [GamePatches.mk title region title_id version (some alt)
            (some td) (some dn) [] true]) := by
  have hsave : ∀ (e : StoreEnv) (d : PatchesDatabase),
      ((xemu_patches_save_database e d).2.1).games = d.games := by
    intro e d
    unfold xemu_patches_save_database
    split_ifs <;> rfl
  have hevalN : firstIdxWhere
      (fun game => game.title_id = title_id ∧ game.version = version) db.games = none →
      xemu_patches_find_duplicate_game true db title_id version = -1 := by
    intro hr
    unfold xemu_patches_find_duplicate_game
    rw [if_neg (by decide), hr]
  have hevalS : ∀ i, firstIdxWhere
      (fun game => game.title_id = title_id ∧ game.version = version) db.games
        = some i →
      xemu_patches_find_duplicate_game true db title_id version = (i : Int) := by
    intro i hr
    unfold xemu_patches_find_duplicate_game
    rw [if_neg (by decide), hr]
  refine ⟨?_, ?_, ?_, ?_⟩
  · cases hf : firstIdxWhere
        (fun game => game.title_id = title_id ∧ game.version = version) db.games with
    | none =>
      exact iff_of_true (hevalN hf) (firstIdxWhere_eq_none_iff.mp hf)
    | some i =>
      obtain ⟨g, hgi, hpg⟩ := firstIdxWhere_some hf
      rw [hevalS i hf]
      exact iff_of_false (by omega)
        (fun hall => hall g (List.getElem?_mem hgi) hpg)
  · intro i hi
    cases hf : firstIdxWhere
        (fun game => game.title_id = title_id ∧ game.version = version) db.games with
    | none =>
      rw [hevalN hf] at hi
      exact absurd hi (by omega)
    | some j =>
      rw [hevalS j hf] at hi
      have hji : j = i := by omega
      subst hji
      exact firstIdxWhere_some hf
  · rintro ⟨g, hg, hpg⟩
    unfold drawAddGameDialog_add
    rw [if_neg (by simp [ht, hid]), hl]
    cases hf : firstIdxWhere
        (fun game => game.title_id = title_id ∧ game.version = version) db.games with
    | none =>
      exact absurd (firstIdxWhere_eq_none_iff.mp hf g hg) (by simp [hpg])
    | some i =>
      rw [hevalS i hf, if_pos (by omega)]
      exact ⟨rfl, i, rfl⟩
  · intro hall
    unfold drawAddGameDialog_add
    rw [if_neg (by simp [ht, hid]), hl]
    have hf : firstIdxWhere
        (fun game => game.title_id = title_id ∧ game.version = version) db.games
        = none := firstIdxWhere_eq_none_iff.mpr hall
    rw [hevalN hf, if_neg (by omega)]
    refine ⟨rfl, ?_⟩
    unfold xemu_patches_add_game
    simp only [hsave]
    rfl

/-- Witness for C6: with one game (4D530001, version 1.00) on file, adding
the same title id under version 2.00 is accepted and appended. -/
theorem C6_duplicate_rejection_witness :
    (drawAddGameDialog_add (StoreEnv.mk true true true false true)
      (PatchesDatabase.mk [c5game] false) (strOf "Halo") (strOf "NTSC-U")
      (strOf "4D530001") (strOf "2.00") [] [] []).1 = AddGameOutcome.added :=
  ((C6_duplicate_rejection (StoreEnv.mk true true true false true)
      (PatchesDatabase.mk [c5game] false) (strOf "Halo") (strOf "NTSC-U")
      (strOf "4D530001") (strOf "2.00") [] [] [] rfl (by decide)
      (by decide)).2.2.2 (by decide)).1

/-! ### Guest-memory helper lemmas for the apply/restore analysis (C2) -/

theorem check_startup_retry_skip (env : TickEnv) (s : EngineState)
    (h : s.startup_retry_enabled = false) :
    check_startup_retry_detection env s = s := by
  unfold check_startup_retry_detection
  rw [if_pos h]

theorem post_reset_head_steps (env : TickEnv) (s : EngineState)
    (hcr : s.crashed = false)
    (himm : s.immediate_trigger_checked = true)
    (hsr : s.startup_retry_enabled = false)
    (hsch : s.post_reset_patch_scheduled = true) :
    xemu_patches_process_post_reset_tick env s =
      postResetScheduled env { s with ppru_call_count := s.ppru_call_count + 1 } := by
  unfold xemu_patches_process_post_reset_tick
  rw [if_neg (by simp [hcr])]
  unfold_let
  rw [if_neg (by simp [himm])]
  dsimp only
  rw [if_neg (by decide)]
  rw [check_startup_retry_skip env
    { s with ppru_call_count := s.ppru_call_count + 1 } hsr]
  rw [if_neg (by simp [hsch])]

theorem postResetScheduled_timeout_clears (env : TickEnv) (s : EngineState)
    (hst : s.post_reset_start_time ≠ 0)
    (htime : 3000 < env.now - s.post_reset_start_time) :
    (postResetScheduled env s).post_reset_patch_scheduled = false ∧
    (postResetScheduled env s).post_reset_system_active = false := by
  unfold postResetScheduled
  rw [if_neg hst]
  unfold_let
  set s1 := { s with post_reset_call_count := s.post_reset_call_count + 1 } with hs1
  have h1 : s1.post_reset_start_time = s.post_reset_start_time := by rw [hs1]
  rw [if_pos (Or.inl (show 3000 < env.now - s1.post_reset_start_time by
    rw [h1]; exact htime))]
  rcases hdet : detect_vm_reset_completion env s1 with ⟨sd, bd⟩
  exact ⟨rfl, rfl⟩

theorem postResetScheduled_ceiling_clears (env : TickEnv) (s : EngineState)
    (hst : s.post_reset_start_time ≠ 0)
    (htime : env.now - s.post_reset_start_time ≤ 3000)
    (hcc : s.post_reset_call_count + 1 ≤ 1000)
    (hretry : 3 ≤ s.post_reset_retry_count) :
    (postResetScheduled env s).post_reset_patch_scheduled = false ∧
    (postResetScheduled env s).post_reset_system_active = false := by
  unfold postResetScheduled
  rw [if_neg hst]
  unfold_let
  set s1 := { s with post_reset_call_count := s.post_reset_call_count + 1 } with hs1
  have h1 : s1.post_reset_start_time = s.post_reset_start_time := by rw [hs1]
  have h2 : s1.post_reset_call_count = s.post_reset_call_count + 1 := by rw [hs1]
  rw [if_neg (show ¬(3000 < env.now - s1.post_reset_start_time
      ∨ 1000 < s1.post_reset_call_count) by
    push_neg
    rw [h1, h2]
    exact ⟨htime, hcc⟩)]
  unfold postResetRetryPhase
  unfold_let
  set s2 := { s1 with post_reset_retry_count := s1.post_reset_retry_count + 1 }
    with hs2
  have h3 : s2.post_reset_retry_count = s.post_reset_retry_count + 1 := by
    rw [hs2, hs1]
  rw [if_pos (show 3 < s2.post_reset_retry_count by rw [h3]; omega)]
  exact ⟨rfl, rfl⟩

theorem detect_vm_reset_not_triggered (env : TickEnv) (s : EngineState)
    (h : s.vm_reset_triggered = false) :
    (detect_vm_reset_completion env s).2 = false := by
  unfold detect_vm_reset_completion
  unfold_let
  split_ifs with h1 h2 <;> first
    | rfl
    | simp_all

/-- C8 (amended): post-reset bounded retry and timeout.  Scheduling only
raises the scheduled flag — no guest memory is touched at scheduling time —
and a scheduled cycle is force-completed by the 3000 ms timeout and by the
retry ceiling (`MAX_POST_RESET_RETRIES` = 3): in both cases the scheduled
flag and the coordination flag are cleared so the system cannot hang
forever.  (The per-call pass is NOT gated on the guest-ready poll: see the
counterexample, where patches are written in a call whose readiness poll
fails.) -/
theorem C8_post_reset_bounded_retry (env : TickEnv) (s : EngineState)
    (s2 : EngineState)
    (hcr : s.crashed = false)
    (himm : s.immediate_trigger_checked = true)
    (hsr : s.startup_retry_enabled = false)
    (hsch : s.post_reset_patch_scheduled = true)
    (hst : s.post_reset_start_time ≠ 0) :
    ((schedule_post_reset_patch_application s2).post_reset_patch_scheduled = true ∧
     (schedule_post_reset_patch_application s2).log_writes = s2.log_writes ∧
     (schedule_post_reset_patch_application s2).mem = s2.mem) ∧
    (3000 < env.now - s.post_reset_start_time →
      (xemu_patches_process_post_reset_tick env s).post_reset_patch_scheduled
        = false ∧
      (xemu_patches_process_post_reset_tick env s).post_reset_system_active
        = false) ∧
    (env.now - s.post_reset_start_time ≤ 3000 →
      s.post_reset_call_count + 1 ≤ 1000 →
      3 ≤ s.post_reset_retry_count →
      (xemu_patches_process_post_reset_tick env s).post_reset_patch_scheduled
        = false ∧
      (xemu_patches_process_post_reset_tick env s).post_reset_system_active
        = false) := by
  refine ⟨?_, ?_, ?_⟩
  · unfold schedule_post_reset_patch_application
    unfold_let
    split_ifs <;> exact ⟨rfl, rfl, rfl⟩
  · intro htime
    rw [post_reset_head_steps env s hcr himm hsr hsch]
    exact postResetScheduled_timeout_clears env
      { s with ppru_call_count := s.ppru_call_count + 1 } hst htime
  · intro htime hcc hretry
    rw [post_reset_head_steps env s hcr himm hsr hsch]
    exact postResetScheduled_ceiling_clears env
      { s with ppru_call_count := s.ppru_call_count + 1 } hst htime hcc hretry

/-- Counterexample to C8 as stated: the pass is NOT merely a poll.  In this
call the VM-reset readiness poll can only fail (`g_vm_reset_triggered` is
false, and `detect_vm_reset_completion` returns false whenever it is), yet
the call writes the enabled patch's bytes into guest memory. -/
theorem C8_post_reset_bounded_retry_counterexample :
    (∀ (e : TickEnv) (s3 : EngineState), s3.vm_reset_triggered = false →
      (detect_vm_reset_completion e s3).2 = false) ∧
    c8cexState.vm_reset_triggered = false ∧
    c8cexState.log_writes = [] ∧
    (xemu_patches_process_post_reset_tick c8cexEnv c8cexState).log_writes
      = [(65536, [239], true)] := by
  refine ⟨fun e s3 h3 => detect_vm_reset_not_triggered e s3 h3, rfl, rfl, ?_⟩
  set_option maxRecDepth 10000 in decide

/-- Witness for C8: the ceiling clause at a concrete scheduled state with
the retry counter at 3 clears the scheduled flag. -/
theorem C8_post_reset_bounded_retry_witness :
    (xemu_patches_process_post_reset_tick c8wEnv c8wState).post_reset_patch_scheduled
      = false :=
  ((C8_post_reset_bounded_retry c8wEnv c8wState c8wState rfl rfl rfl rfl
      (by decide)).2.2 (by decide) (by decide) (by decide)).1

/-- C4 (code bug): the save/load round trip loses patch data on a
reachable database.  The patch added with the text `"00123456: DE AD BE EF"`
holds one four-byte pair in memory; `xemu_patches_save_database` writes the
preserved source line verbatim, but `xemu_patches_load_database` re-parses
it through `strtoul`-with-endptr logic that rejects the space-separated
byte list, so the reloaded database holds the SAME patch with ZERO pairs
(the source line itself survives) — the round trip is not identity modulo
whitespace. -/
theorem C4_database_round_trip :
    c4db.games.map (fun g => g.patches.map (fun p => p.address_values))
      = [[[PatchAV.mk 1193046 [222, 173, 190, 239]]]] ∧
    (xemu_patches_load_database_lines (serializeDatabase c4db)).games.map
      (fun g => g.patches.map (fun p => p.address_values)) = [[[]]] ∧
    (xemu_patches_load_database_lines (serializeDatabase c4db)).games.map
      (fun g => g.patches.map (fun p => p.address_value_lines)) = [[[c4text]]] := by
  refine ⟨by decide, by decide, by decide⟩

/-! ### Main-loop decision-phase lemmas (C1) -/

theorem mainLoopNotify_last_applied (env : TickEnv) (s : EngineState)
    (w : Bool) (n : Nat) (t : CStr) :
    (mainLoopNotify env s w n t).last_applied_title_id = s.last_applied_title_id ∧
    (mainLoopNotify env s w n t).last_applied_region = s.last_applied_region ∧
    (mainLoopNotify env s w n t).last_applied_version = s.last_applied_version := by
  unfold mainLoopNotify
  unfold_let
  split_ifs <;> exact ⟨rfl, rfl, rfl⟩

set_option maxHeartbeats 1600000 in
/-- C1 (amended): the apply-pass guard of the main loop.  The guard is the
last-applied (title_id, region, version) triple, NOT the
`g_patches_applied_for_current_cert` flag: a tick whose successful
certificate read repeats the last-applied triple (with no manual reset
pending) changes nothing — no second pass, no writes; and a pass updates
that triple exactly when it finds no matching game, finds a game with zero
enabled patches, or counts at least one applied patch.  (A pass whose
patch writes all fail updates nothing and therefore REPEATS on the next
tick for the same identity — see the counterexample.) -/
theorem C1_at_most_one_apply_guard (env : TickEnv) (s : EngineState)
    (tid reg ver : Nat) :
    (tid = s.last_applied_title_id → reg = s.last_applied_region →
      ver = s.last_applied_version → s.manual_reset_detected = false →
      mainLoopCertPhase env s tid reg ver = s) ∧
    (s.manual_reset_detected = false →
      s.post_reset_patch_application_active = false →
      s.load_disc_in_progress = false →
      (tid ≠ 0 ∧ (tid ≠ s.last_applied_title_id ∨ reg ≠ s.last_applied_region
        ∨ ver ≠ s.last_applied_version)) →
      s.patches_loaded = true → s.patches_initialized = true →
      (∀ s2, xemu_patches_find_game_by_certificate env (mainLoopNewGameReset s)
          = (s2, none) →
        (mainLoopCertPhase env s tid reg ver).last_applied_title_id = tid ∧
        (mainLoopCertPhase env s tid reg ver).last_applied_region = reg ∧
        (mainLoopCertPhase env s tid reg ver).last_applied_version = ver) ∧
      (∀ s2 gi, xemu_patches_find_game_by_certificate env (mainLoopNewGameReset s)
          = (s2, some gi) →
        ((s2.db.games.getD gi zeroGame).patches.filter (fun p => p.enabled)).length
          = 0 →
        (mainLoopCertPhase env s tid reg ver).last_applied_title_id = tid ∧
        (mainLoopCertPhase env s tid reg ver).last_applied_region = reg ∧
        (mainLoopCertPhase env s tid reg ver).last_applied_version = ver) ∧
      (∀ s2 gi s3 n,
        xemu_patches_find_game_by_certificate env (mainLoopNewGameReset s)
          = (s2, some gi) →
        ((s2.db.games.getD gi zeroGame).patches.filter (fun p => p.enabled)).length
          ≠ 0 →
        mainLoopApplyPatches s2 (s2.db.games.getD gi zeroGame).patches = (s3, n) →
        n ≠ 0 →
        (mainLoopCertPhase env s tid reg ver).last_applied_title_id = tid ∧
        (mainLoopCertPhase env s tid reg ver).last_applied_region = reg ∧
        (mainLoopCertPhase env s tid reg ver).last_applied_version = ver)) := by
  constructor
  · intro h1 h2 h3 hmr
    unfold mainLoopCertPhase
    unfold_let
    rw [if_neg (show ¬(tid ≠ 0 ∧ (tid ≠ s.last_applied_title_id
      ∨ reg ≠ s.last_applied_region ∨ ver ≠ s.last_applied_version)) by omega)]
    split_ifs with g1 g2 g3 g4
    · simp_all
    · rfl
    · rfl
    · omega
    · rfl
  · intro hmr hpa hld hnew hl hi
    refine ⟨?_, ?_, ?_⟩
    · intro s2 hfind
      unfold mainLoopCertPhase
      unfold_let
      rw [if_pos hnew]
      split_ifs with g1 g2 g3 g4
      · exact absurd g1 (by simp [mainLoopNewGameReset, hmr])
      · exact absurd g2 (by simp [mainLoopNewGameReset, hpa])
      · exact absurd g3 (by simp [mainLoopNewGameReset, hld])
      · rw [hfind]
        exact ⟨rfl, rfl, rfl⟩
      · exact absurd ⟨hnew, hl, hi⟩ g4
    · intro s2 gi hfind hz
      unfold mainLoopCertPhase
      unfold_let
      rw [if_pos hnew]
      split_ifs with g1 g2 g3 g4
      · exact absurd g1 (by simp [mainLoopNewGameReset, hmr])
      · exact absurd g2 (by simp [mainLoopNewGameReset, hpa])
      · exact absurd g3 (by simp [mainLoopNewGameReset, hld])
      · rw [hfind]
        dsimp only
        rw [if_pos hz]
        exact ⟨rfl, rfl, rfl⟩
      · exact absurd ⟨hnew, hl, hi⟩ g4
    · intro s2 gi s3 n hfind hz happ hn
      unfold mainLoopCertPhase
      unfold_let
      rw [if_pos hnew]
      split_ifs with g1 g2 g3 g4
      · exact absurd g1 (by simp [mainLoopNewGameReset, hmr])
      · exact absurd g2 (by simp [mainLoopNewGameReset, hpa])
      · exact absurd g3 (by simp [mainLoopNewGameReset, hld])
      · rw [hfind]
        dsimp only
        rw [if_neg hz, happ]
        dsimp only
        rw [if_neg hn]
        have hpres := mainLoopNotify_last_applied env { s3 with manual_reset_detected := false, last_applied_title_id := tid, last_applied_region := reg, last_applied_version := ver } s3.manual_reset_detected n (s2.db.games.getD gi zeroGame).game_title
        exact ⟨hpres.1.trans rfl, hpres.2.1.trans rfl, hpres.2.2.trans rfl⟩
      · exact absurd ⟨hnew, hl, hi⟩ g4

set_option maxRecDepth 10000 in
/-- Counterexample to C1 as stated: with every patch write failing, 60
ticks under one FIXED accepted identity and no reset produce TWO apply
passes (two logged write attempts for the same pair), even though the
applied-for-current-identity flag ends up SET — the flag neither gates the
pass nor is set once per completed pass; the actual guard, the
last-applied triple, is never updated because zero patches counted as
applied. -/
theorem C1_at_most_one_apply_guard_counterexample :
    (c1Run 60).log_writes = [(65536, [239], false), (65536, [239], false)] ∧
    (c1Run 60).reset_detection_count = 0 ∧
    (c1Run 60).manual_reset_detected = false ∧
    (c1Run 60).patches_applied_for_current_cert = true ∧
    (c1Run 60).last_applied_title_id = 0 := by
  refine ⟨?_, ?_, ?_, ?_, ?_⟩ <;> decide

/-- Witness for C1: a tick whose certificate repeats the last-applied
triple (5, 1, 2) leaves the state untouched. -/
theorem C1_at_most_one_apply_guard_witness :
    mainLoopCertPhase (TickEnv.mk 0 0 none true true) c1wState 5 1 2
      = c1wState :=
  (C1_at_most_one_apply_guard (TickEnv.mk 0 0 none true true) c1wState
    5 1 2).1 rfl rfl rfl rfl

end Xemu
